import Mathlib

/-!
Verification development for the ILS2.0 repository.

This file gives a shallow embedding, in Lean 4, of the parts of the code that
the specification talks about:

* `ai-service/api/tenant_router.py` — `TenantRouter` (cache keys, request
  deduplication, response caching with eviction, sliding-window rate limiting,
  per-tenant configuration, and `route_query`);
* `python-rag-service/services/rag_service.py` — `RAGService.search_knowledge_base`;
* `python-rag-service/api/main.py` — the exception handlers and the endpoint
  wrapping pattern;
* `ai-service/data/anonymize_patient_data.py` — `PatientDataAnonymizer`;
* `ai-service/rag/secure_rag_engine.py` — the PII-term guard of
  `SecureRAGEngine.query_patient_analytics`.

Modelling conventions:

* `datetime.utcnow()` values are modelled as integers counting seconds
  (`Time := ℤ`); all the properties at issue are stated at second granularity.
* Python `dict`s are modelled as association lists with the usual
  insert-or-replace update; Python's `dict` keeps keys unique, and every
  operation below preserves that.
* `hashlib.sha256(...).hexdigest()` is implemented bit-for-bit (FIPS 180-4)
  over the UTF-8 bytes of the input string.
* Fallible Python code is modelled with `Option`/`Except`; a raised exception
  is an `Except.error`.
* Where a function performs externally visible I/O (issuing a database query,
  awaiting `_process_query`), the model takes the I/O result as an explicit
  argument and reports how many such calls were issued, so that claims of the
  form "no query is issued" are expressible.
-/

namespace Py

/-- Python `str.lower()`. `Char.toLower` lowers exactly the ASCII uppercase
letters; all strings appearing in the claims are ASCII. -/
def pyLower (s : String) : String :=
  ⟨s.data.map Char.toLower⟩

/-- Python `str.strip()` with no argument: remove leading and trailing
whitespace. -/
def pyStrip (s : String) : String :=
  ⟨((s.data.dropWhile Char.isWhitespace).reverse.dropWhile Char.isWhitespace).reverse⟩

/-- Python's substring test `needle in hay` on strings, over character lists. -/
def hasSubstr (needle : List Char) : List Char → Bool
  | [] => needle.isEmpty
  | c :: rest => needle.isPrefixOf (c :: rest) || hasSubstr needle rest

/-- De-sugared digit-string value: `some` of the base-10 value when every
character is an ASCII digit and the list is nonempty. -/
def digitsToNat (ds : List Char) : Option ℕ :=
  if ds ≠ [] && ds.all Char.isDigit then
    some (ds.foldl (fun acc c => 10 * acc + (c.toNat - 48)) 0)
  else
    none

/-- Python `int(s)` on a string: optional surrounding whitespace, optional
sign, then decimal digits; anything else raises `ValueError`, modelled as
`none`. (Underscore separators accepted by CPython are not modelled; no
claim depends on them.) -/
def pyParseInt (s : String) : Option ℤ :=
  match (pyStrip s).data with
  | '-' :: ds => (digitsToNat ds).map (fun n => -(n : ℤ))
  | '+' :: ds => (digitsToNat ds).map (fun n => (n : ℤ))
  | ds => (digitsToNat ds).map (fun n => (n : ℤ))

/-- Fuel-driven digit production; the fuel only serves structural recursion
and is immaterial once it exceeds the value (see `natRepr`). -/
def natReprGo : ℕ → ℕ → List Char
  | 0, _ => []
  | fuel + 1, n =>
      if n < 10 then [Char.ofNat (48 + n)]
      else natReprGo fuel (n / 10) ++ [Char.ofNat (48 + n % 10)]

/-- Decimal digit list of a natural number, mirroring Python `str(n)` for
`n ≥ 0`. -/
def natRepr (n : ℕ) : List Char :=
  natReprGo (n + 1) n

/-- Python `str(n)` for an `int` value `n`. -/
def intRepr (n : ℤ) : String :=
  if n < 0 then ⟨'-' :: natRepr n.natAbs⟩ else ⟨natRepr n.toNat⟩

/-- Association-list lookup with a default, as in `dict.get(k, d)` or a
`defaultdict` read. -/
def getAssocD (l : List (String × α)) (k : String) (d : α) : α :=
  (List.lookup k l).getD d

/-- Association-list update `d[k] = v`: replace the binding when the key is
present, append it otherwise (Python dicts keep one binding per key). -/
def setAssoc (l : List (String × α)) (k : String) (v : α) : List (String × α) :=
  if l.any (fun p => p.1 == k) then
    l.map (fun p => if p.1 == k then (k, v) else p)
  else
    l ++ [(k, v)]

end Py

namespace SHA256

/-- Truncation to a 32-bit word. -/
def w32 (n : ℕ) : ℕ := n % 4294967296

/-- Right rotation of a 32-bit word. -/
def rotr (k x : ℕ) : ℕ := w32 ((x >>> k) ||| (x <<< (32 - k)))

/-- Bitwise choice function of the compression loop. -/
def ch (x y z : ℕ) : ℕ := (x &&& y) ^^^ ((x ^^^ 4294967295) &&& z)

/-- Bitwise majority function of the compression loop. -/
def maj (x y z : ℕ) : ℕ := (x &&& y) ^^^ (x &&& z) ^^^ (y &&& z)

/-- Big sigma-0 of FIPS 180-4. -/
def bsig0 (x : ℕ) : ℕ := rotr 2 x ^^^ rotr 13 x ^^^ rotr 22 x

/-- Big sigma-1 of FIPS 180-4. -/
def bsig1 (x : ℕ) : ℕ := rotr 6 x ^^^ rotr 11 x ^^^ rotr 25 x

/-- Small sigma-0 of FIPS 180-4. -/
def ssig0 (x : ℕ) : ℕ := rotr 7 x ^^^ rotr 18 x ^^^ (x >>> 3)

/-- Small sigma-1 of FIPS 180-4. -/
def ssig1 (x : ℕ) : ℕ := rotr 17 x ^^^ rotr 19 x ^^^ (x >>> 10)

/-- The 64 round constants of FIPS 180-4 section 4.2.2, in decimal. -/
def kConst : List ℕ :=
  [1116352408, 1899447441, 3049323471, 3921009573,
   961987163, 1508970993, 2453635748, 2870763221,
   3624381080, 310598401, 607225278, 1426881987,
   1925078388, 2162078206, 2614888103, 3248222580,
   3835390401, 4022224774, 264347078, 604807628,
   770255983, 1249150122, 1555081692, 1996064986,
   2554220882, 2821834349, 2952996808, 3210313671,
   3336571891, 3584528711, 113926993, 338241895,
   666307205, 773529912, 1294757372, 1396182291,
   1695183700, 1986661051, 2177026350, 2456956037,
   2730485921, 2820302411, 3259730800, 3345764771,
   3516065817, 3600352804, 4094571909, 275423344,
   430227734, 506948616, 659060556, 883997877,
   958139571, 1322822218, 1537002063, 1747873779,
   1955562222, 2024104815, 2227730452, 2361852424,
   2428436474, 2756734187, 3204031479, 3329325298]

/-- Working state of the compression function: eight 32-bit words. -/
structure Hash8 where
  a : ℕ
  b : ℕ
  c : ℕ
  d : ℕ
  e : ℕ
  f : ℕ
  g : ℕ
  h : ℕ
  deriving DecidableEq

/-- The initial hash value of FIPS 180-4 section 5.3.3, in decimal. -/
def initH : Hash8 :=
  ⟨1779033703, 3144134277, 1013904242, 2773480762,
   1359893119, 2600822924, 528734635, 1541459225⟩

/-- Big-endian byte decomposition of `n` into `k` bytes. -/
def beBytes (k n : ℕ) : List ℕ :=
  (List.range k).map (fun i => (n >>> (8 * (k - 1 - i))) % 256)

/-- Message padding: a `0x80` byte, zero bytes up to 56 mod 64, and the
64-bit big-endian bit length. -/
def pad (msg : List ℕ) : List ℕ :=
  let z := (64 - ((msg.length + 9) % 64)) % 64
  msg ++ [0x80] ++ List.replicate z 0 ++ beBytes 8 (8 * msg.length)

/-- Group big-endian bytes into 32-bit words. -/
def toWords : List ℕ → List ℕ
  | b0 :: b1 :: b2 :: b3 :: rest =>
      (b0 <<< 24 ||| b1 <<< 16 ||| b2 <<< 8 ||| b3) :: toWords rest
  | _ => []

/-- Fuel-driven chunk splitter; structural in the fuel so that it reduces
definitionally (the fuel only needs to be at least the list length). -/
def chunksGo : ℕ → List ℕ → List (List ℕ)
  | 0, _ => []
  | _, [] => []
  | fuel + 1, b :: rest => ((b :: rest).take 64) :: chunksGo fuel ((b :: rest).drop 64)

/-- Split a byte list into 64-byte chunks. -/
def chunks64 (l : List ℕ) : List (List ℕ) :=
  chunksGo l.length l

/-- One step of the message-schedule extension. -/
def extendStep (w : List ℕ) : List ℕ :=
  w ++ [w32 (w.getD (w.length - 16) 0 + ssig0 (w.getD (w.length - 15) 0) +
             w.getD (w.length - 7) 0 + ssig1 (w.getD (w.length - 2) 0))]

/-- The 64-word message schedule of a 64-byte chunk. -/
def schedule (chunk : List ℕ) : List ℕ :=
  (List.range 48).foldl (fun w _ => extendStep w) (toWords chunk)

/-- One round of the compression loop; the pair carries the scheduled word
and the round constant. -/
def compressStep (st : Hash8) (wk : ℕ × ℕ) : Hash8 :=
  let t1 := w32 (st.h + bsig1 st.e + ch st.e st.f st.g + wk.2 + wk.1)
  let t2 := w32 (bsig0 st.a + maj st.a st.b st.c)
  ⟨w32 (t1 + t2), st.a, st.b, st.c, w32 (st.d + t1), st.e, st.f, st.g⟩

/-- Process one 64-byte chunk. -/
def compressChunk (hs : Hash8) (chunk : List ℕ) : Hash8 :=
  let fin := ((schedule chunk).zip kConst).foldl compressStep hs
  ⟨w32 (hs.a + fin.a), w32 (hs.b + fin.b), w32 (hs.c + fin.c), w32 (hs.d + fin.d),
   w32 (hs.e + fin.e), w32 (hs.f + fin.f), w32 (hs.g + fin.g), w32 (hs.h + fin.h)⟩

/-- SHA-256 of a byte list, as eight 32-bit words. -/
def sha256Words (msg : List ℕ) : List ℕ :=
  let hs := (chunks64 (pad msg)).foldl compressChunk initH
  [hs.a, hs.b, hs.c, hs.d, hs.e, hs.f, hs.g, hs.h]

/-- Lower-case hex digit. -/
def hexChar (n : ℕ) : Char :=
  if n < 10 then Char.ofNat (48 + n) else Char.ofNat (87 + n)

/-- Eight-digit hex rendering of a 32-bit word. -/
def wordHex (n : ℕ) : List Char :=
  (List.range 8).map (fun i => hexChar ((n >>> (4 * (7 - i))) % 16))

/-- UTF-8 encoding of one character, as Python `str.encode()` produces. -/
def encodeChar (c : Char) : List ℕ :=
  let n := c.toNat
  if n < 0x80 then [n]
  else if n < 0x800 then [0xc0 ||| (n >>> 6), 0x80 ||| (n % 64)]
  else if n < 0x10000 then
    [0xe0 ||| (n >>> 12), 0x80 ||| ((n >>> 6) % 64), 0x80 ||| (n % 64)]
  else
    [0xf0 ||| (n >>> 18), 0x80 ||| ((n >>> 12) % 64), 0x80 ||| ((n >>> 6) % 64),
     0x80 ||| (n % 64)]

/-- UTF-8 bytes of a string. -/
def utf8Bytes (s : String) : List ℕ :=
  (s.data.map encodeChar).flatten

/-- Python `hashlib.sha256(s.encode()).hexdigest()`. -/
def sha256Hex (s : String) : String :=
  ⟨((sha256Words (utf8Bytes s)).map wordHex).flatten⟩

end SHA256

namespace TenantRouter

/-- Wall-clock instants (`datetime.utcnow()`), counted in seconds. -/
abbrev Time := ℤ

/-- The `cache_ttl` attribute set in `TenantRouter.__init__` (seconds). -/
def cacheTtl : ℤ := 300

/-- The `.seconds` attribute of a Python `timedelta` whose exact value is
`delta` seconds: the day component is split off, leaving a value in
`[0, 86400)`. This is the quantity `check_duplicate_request` compares against
`cache_ttl` (the code reads `.seconds`, not `.total_seconds()`). -/
def tdSeconds (delta : Time) : ℤ := delta % 86400

/-- A response dictionary as produced by `_process_query`; the payload fields
that the router never inspects are collapsed into `answer`. Responses built by
`_process_query` are nonempty dicts, hence truthy, so `if cached_response:`
in `route_query` is modelled by matching on the `Option`. -/
structure Response where
  answer : String
  tokens_used : ℕ
  success : Bool
  deriving DecidableEq

/-- One entry of `request_cache`. -/
structure CacheEntry where
  timestamp : Time
  response : Response
  tenant_id : String
  deriving DecidableEq

/-- One value of the `usage_stats` defaultdict. -/
structure UsageStats where
  requests_count : ℕ
  tokens_used : ℕ
  cache_hits : ℕ
  errors : ℕ
  deriving DecidableEq

/-- The defaultdict initializer for `usage_stats`. -/
def freshStats : UsageStats := ⟨0, 0, 0, 0⟩

/-- The mutable state of a `TenantRouter` instance (the `active_tenants`
dict is written nowhere in the class and is omitted). -/
structure RouterState where
  request_cache : List (String × CacheEntry)
  rate_limits : List (String × List Time)
  usage_stats : List (String × UsageStats)
  deriving DecidableEq

/-- The router state built by `TenantRouter.__init__`. -/
def initialState : RouterState := ⟨[], [], []⟩

/-- The pre-hash string of `_generate_cache_key`:
`f"{tenant_id}:{query_type}:{query.lower().strip()}"`. -/
def cacheData (tenant_id query query_type : String) : String :=
  tenant_id ++ ":" ++ query_type ++ ":" ++ Py.pyStrip (Py.pyLower query)

/-- `TenantRouter._generate_cache_key`. -/
def generateCacheKey (tenant_id query query_type : String) : String :=
  SHA256.sha256Hex (cacheData tenant_id query query_type)

/-- Increment `usage_stats[tenant_id]["cache_hits"]`. -/
def bumpCacheHits (stats : List (String × UsageStats)) (tenant_id : String) :
    List (String × UsageStats) :=
  let old := Py.getAssocD stats tenant_id freshStats
  Py.setAssoc stats tenant_id { old with cache_hits := old.cache_hits + 1 }

/-- `TenantRouter.check_duplicate_request`: look the key up; serve the entry
when `(now - timestamp).seconds < cache_ttl`, delete it otherwise. -/
def checkDuplicateRequest (st : RouterState) (tenant_id query query_type : String)
    (now : Time) : Option Response × RouterState :=
  let key := generateCacheKey tenant_id query query_type
  match List.lookup key st.request_cache with
  | some cached =>
      if tdSeconds (now - cached.timestamp) < cacheTtl then
        (some cached.response,
         { st with usage_stats := bumpCacheHits st.usage_stats tenant_id })
      else
        (none,
         { st with request_cache := st.request_cache.eraseP (fun p => p.1 == key) })
  | none => (none, st)

/-- `TenantRouter.cache_response`: store the entry under its key; when the
cache then holds more than 1000 entries, drop the 100 entries with the oldest
timestamps (the code sorts the keys by timestamp and deletes the first 100;
sorting the entries and dropping the first 100 leaves the same map). -/
def cacheResponse (st : RouterState) (tenant_id query query_type : String)
    (response : Response) (now : Time) : RouterState :=
  let key := generateCacheKey tenant_id query query_type
  let cache1 := Py.setAssoc st.request_cache key ⟨now, response, tenant_id⟩
  let cache2 :=
    if 1000 < cache1.length then
      (cache1.mergeSort (fun p q => p.2.timestamp ≤ q.2.timestamp)).drop 100
    else cache1
  { st with request_cache := cache2 }

/-- `TenantRouter.check_rate_limit` acting on one tenant's timestamp list:
keep the timestamps strictly newer than `now - 60`, refuse when at least
`max_requests_per_minute` remain, and otherwise record `now` and accept. -/
def checkRateLimit (maxReq : ℤ) (recent : List Time) (now : Time) :
    Bool × List Time :=
  let recentReqs := recent.filter (fun t => decide (now - 60 < t))
  if maxReq ≤ (recentReqs.length : ℤ) then (false, recentReqs)
  else (true, recentReqs ++ [now])

/-- Run `check_rate_limit` over a sequence of call instants for one tenant,
starting from timestamp list `st`, collecting the accepted instants. -/
def rlRunFrom (maxReq : ℤ) : List Time → List Time → List Time → List Time × List Time
  | st, accepted, [] => (st, accepted)
  | st, accepted, now :: rest =>
      let step := checkRateLimit maxReq st now
      rlRunFrom maxReq step.2 (if step.1 then accepted ++ [now] else accepted) rest

/-- Run `check_rate_limit` over a sequence of call instants for one tenant of
a freshly constructed router. -/
def rlRun (maxReq : ℤ) (calls : List Time) : List Time × List Time :=
  rlRunFrom maxReq [] [] calls

/-- Process environment, as read through `os.getenv`. -/
def Env := String → Option String

/-- Python `os.getenv(key, default)`. -/
def getenvD (env : Env) (k d : String) : String := (env k).getD d

/-- The configuration dict returned by `TenantRouter.get_tenant_config`. -/
structure TenantConfig where
  tenant_id : String
  rate_limit : ℤ
  max_tokens_per_request : ℕ
  cache_enabled : Bool
  features : List (String × Bool)
  subscription_tier : String
  sales_db : String
  inventory_db : String
  patient_db : String
  deriving DecidableEq

/-- `TenantRouter.get_tenant_config`. Returns `none` when
`int(os.getenv(f"TENANT_{tenant_id}_RATE_LIMIT", "60"))` raises `ValueError`
on a malformed environment value; otherwise the literal dict of the source. -/
def getTenantConfig (env : Env) (tenant_id : String) : Option TenantConfig :=
  let base := getenvD env "DATABASE_URL" "postgresql://localhost/ils_db"
  let sales := getenvD env ("TENANT_" ++ tenant_id ++ "_SALES_DB")
      (getenvD env "DATABASE_URL" base)
  let inventory := getenvD env ("TENANT_" ++ tenant_id ++ "_INVENTORY_DB")
      (getenvD env "DATABASE_URL" base)
  let patient := getenvD env ("TENANT_" ++ tenant_id ++ "_PATIENT_DB")
      (getenvD env "DATABASE_URL" base)
  match Py.pyParseInt (getenvD env ("TENANT_" ++ tenant_id ++ "_RATE_LIMIT") "60") with
  | none => none
  | some rl =>
      some
        { tenant_id := tenant_id
          rate_limit := rl
          max_tokens_per_request := 500
          cache_enabled := true
          features :=
            [("sales_queries", true), ("inventory_queries", true),
             ("patient_analytics", true), ("ophthalmic_knowledge", true)]
          subscription_tier :=
            getenvD env ("TENANT_" ++ tenant_id ++ "_SUBSCRIPTION_TIER") "professional"
          sales_db := sales
          inventory_db := inventory
          patient_db := patient }

/-- The `feature_map` literal of `route_query`. -/
def featureMap (query_type : String) : Option String :=
  List.lookup query_type
    [("sales", "sales_queries"), ("inventory", "inventory_queries"),
     ("patient_analytics", "patient_analytics"),
     ("ophthalmic_knowledge", "ophthalmic_knowledge")]

/-- The guard of step 2 of `route_query`:
`config["features"].get(feature_map.get(query_type), False)`. -/
def featureEnabled (cfg : TenantConfig) (query_type : String) : Bool :=
  match featureMap query_type with
  | some key => (List.lookup key cfg.features).getD false
  | none => false

/-- A raised Python exception as seen at the web-framework boundary: either a
deliberate `fastapi.HTTPException` or any other exception, carried by its
message. -/
inductive PyExn where
  | http (status_code : ℕ) (detail : String)
  | general (msg : String)
  deriving DecidableEq

/-- The value `route_query` returns: the response dict of `_process_query`
or of the cache, merged with the `from_cache` marker (the cache-hit branch
also merges a `cached_at` timestamp, which no claim mentions). -/
structure RoutedResult where
  response : Response
  from_cache : Bool
  deriving DecidableEq

/-- `TenantRouter.track_usage`. -/
def trackUsage (stats : List (String × UsageStats)) (tenant_id : String)
    (tokens_used : ℕ) (success : Bool) : List (String × UsageStats) :=
  let old := Py.getAssocD stats tenant_id freshStats
  Py.setAssoc stats tenant_id
    { old with
      requests_count := old.requests_count + 1
      tokens_used := old.tokens_used + tokens_used
      errors := if success then old.errors else old.errors + 1 }

/-- `TenantRouter.route_query` with the configuration of step 1 passed in
(the code obtains it from `get_tenant_config`) and the awaited result of
`_process_query` passed as `processQuery` (`Except.error` when that call
raises). Returns the result or raised exception, the updated router state,
and whether `_process_query` was awaited. The code reads `datetime.utcnow()`
afresh at each step within microseconds of each other; the model uses one
instant `now`. -/
def routeQueryWith (cfg : TenantConfig) (processQuery : Except String Response)
    (st : RouterState) (tenant_id query query_type : String) (now : Time) :
    Except PyExn RoutedResult × RouterState × Bool :=
  if featureEnabled cfg query_type then
    let rl := Py.getAssocD st.rate_limits tenant_id []
    let step := checkRateLimit cfg.rate_limit rl now
    let st1 := { st with rate_limits := Py.setAssoc st.rate_limits tenant_id step.2 }
    if step.1 then
      let dup :=
        if cfg.cache_enabled then checkDuplicateRequest st1 tenant_id query query_type now
        else (none, st1)
      match dup.1 with
      | some cached => (.ok ⟨cached, true⟩, dup.2, false)
      | none =>
          match processQuery with
          | .ok response =>
              let st3 :=
                { dup.2 with
                  usage_stats := trackUsage dup.2.usage_stats tenant_id response.tokens_used true }
              let st4 :=
                if cfg.cache_enabled then cacheResponse st3 tenant_id query query_type response now
                else st3
              (.ok ⟨response, false⟩, st4, true)
          | .error e =>
              let st3 :=
                { dup.2 with usage_stats := trackUsage dup.2.usage_stats tenant_id 0 false }
              (.error (.general e), st3, true)
    else
      (.error (.http 429 "Rate limit exceeded. Please try again later."), st1, false)
  else
      (.error (.http 403 ("Feature " ++ query_type ++ " not enabled for your subscription")),
     st, false)

end TenantRouter

namespace RAGService

/-- One row of the `ai_knowledge_base` table as the query sees it. -/
structure KBRow where
  id : ℕ
  filename : String
  content : String
  category : Option String
  created_at : ℤ
  company_id : String
  is_active : Bool
  embedding : Option (List ℚ)
  deriving DecidableEq

/-- The two exception classes `search_knowledge_base` raises before issuing
its query. -/
inductive SearchErr where
  | runtimeError (msg : String)
  | valueError (msg : String)
  deriving DecidableEq

/-- The pgvector cosine-distance operator `<=>`. It is an external database
operator, so the model takes it as a parameter; the SQL computes every
similarity as `1 - (embedding <=> query)`. -/
def Dist := List ℚ → List ℚ → ℚ

/-- `RAGService.search_knowledge_base`: validation in source order, then the
single SQL query (filter on company, activity, non-null embedding and
similarity threshold; order by distance ascending; limit). The second
component counts the SQL queries issued, so error paths report `0`. The
result keeps the matched row next to its `similarity` column (the Python
code projects a subset of columns, which no claim depends on). -/
def searchKnowledgeBase (connected : Bool) (table : List KBRow) (dist : Dist)
    (company_id : String) (query_embedding : List ℚ) (lim : ℤ) (threshold : ℚ) :
    Except SearchErr (List (KBRow × ℚ)) × ℕ :=
  if !connected then
    (.error (.runtimeError "Database not connected. Call connect() first."), 0)
  else if company_id = "" then
    (.error (.valueError "company_id is required"), 0)
  else if query_embedding = [] then
    (.error (.valueError "query_embedding is required"), 0)
  else if lim < 1 ∨ 100 < lim then
    (.error (.valueError "limit must be between 1 and 100"), 0)
  else if threshold < 0 ∨ 1 < threshold then
    (.error (.valueError "threshold must be between 0.0 and 1.0"), 0)
  else
    let matching := table.filter (fun r =>
      r.company_id == company_id && r.is_active && r.embedding.isSome &&
        decide (threshold ≤ 1 - dist (r.embedding.getD []) query_embedding))
    let sorted := matching.mergeSort (fun r1 r2 =>
      dist (r1.embedding.getD []) query_embedding ≤ dist (r2.embedding.getD []) query_embedding)
    (.ok ((sorted.take lim.toNat).map
        (fun r => (r, 1 - dist (r.embedding.getD []) query_embedding))), 1)

end RAGService

namespace RagApi

/-- An HTTP response as produced by the exception handlers of
`python-rag-service/api/main.py`. -/
structure HttpResponse where
  status_code : ℕ
  body : String
  deriving DecidableEq

/-- The `@app.exception_handler(HTTPException)` handler: a `JSONResponse`
with the exception's own status code and detail. -/
def httpExceptionHandler (status_code : ℕ) (detail : String) : HttpResponse :=
  ⟨status_code, detail⟩

/-- The `@app.exception_handler(Exception)` handler: a 500 `JSONResponse`
whose JSON body carries the fixed error text and the exception message
(the body dict is modelled as the concatenation of its two values). -/
def generalExceptionHandler (msg : String) : HttpResponse :=
  ⟨500, "Internal server error: " ++ msg⟩

/-- Dispatch of a raised exception to the registered handler, as FastAPI
does for the two handlers registered in `main.py`. -/
def handleException : TenantRouter.PyExn → HttpResponse
  | .http s d => httpExceptionHandler s d
  | .general m => generalExceptionHandler m

/-- The `try/except` wrapper shared by the four POST endpoints of `main.py`
(`search_rag` and the others): any exception from the body is re-raised as
`HTTPException(500, str(e))`. -/
def endpointWrap (body : Except String α) : Except TenantRouter.PyExn α :=
  match body with
  | .ok a => .ok a
  | .error e => .error (.http 500 e)

end RagApi

namespace Anonymizer

/-- A value held in a patient-record dict (the sqlite TEXT/INTEGER/REAL/NULL
storage classes). -/
inductive PyVal where
  | str (s : String)
  | int (n : ℤ)
  | real (q : ℚ)
  | none
  deriving DecidableEq

/-- Python `str(v)` for the record values (the textual form of a REAL value
is immaterial to every claim). -/
def pyStr : PyVal → String
  | .str s => s
  | .int n => Py.intRepr n
  | .real _ => "real"
  | .none => "None"

/-- A parsed calendar date, as `datetime.fromisoformat` produces. -/
structure PyDate where
  year : ℤ
  month : ℕ
  day : ℕ
  deriving DecidableEq

/-- The numeric value of a fixed list of digit characters. -/
def digitsVal (ds : List Char) : ℕ :=
  ds.foldl (fun acc c => 10 * acc + (c.toNat - 48)) 0

/-- Python `datetime.fromisoformat` restricted to its date part
`YYYY-MM-DD[<sep>...]`: four digits, dash, two digits, dash, two digits,
with month in 1..12 and day in 1..31 (day-per-month and time-part
validation are not modelled; no claim depends on which strings parse). -/
def fromIsoformat (s : String) : Option PyDate :=
  match s.data with
  | y1 :: y2 :: y3 :: y4 :: '-' :: m1 :: m2 :: '-' :: d1 :: d2 :: rest =>
      if [y1, y2, y3, y4, m1, m2, d1, d2].all Char.isDigit &&
          (rest.isEmpty || rest.headD ' ' == 'T' || rest.headD ' ' == ' ') then
        let m := digitsVal [m1, m2]
        let d := digitsVal [d1, d2]
        if 1 ≤ m && m ≤ 12 && 1 ≤ d && d ≤ 31 then
          some ⟨(digitsVal [y1, y2, y3, y4] : ℕ), m, d⟩
        else
          Option.none
      else
        Option.none
  | _ => Option.none

/-- `PatientDataAnonymizer._anonymize_date`: `None` for a falsy argument,
`str(parsed.year)` on success, `None` when parsing raises (a non-string
argument makes `fromisoformat` raise `TypeError`, which the `except` catches
as well). -/
def anonymizeDate (v : PyVal) : Option String :=
  match v with
  | .str s => if s = "" then Option.none else (fromIsoformat s).map (fun d => Py.intRepr d.year)
  | _ => Option.none

/-- `PatientDataAnonymizer._calculate_age_group`. -/
def calculateAgeGroup (birth_year reference_year : ℤ) : String :=
  let age := reference_year - birth_year
  if age < 18 then "under-18"
  else if age < 30 then "18-29"
  else if age < 40 then "30-39"
  else if age < 50 then "40-49"
  else if age < 60 then "50-59"
  else if age < 70 then "60-69"
  else "70-plus"

/-- A word character of the regex `\b` boundary (ASCII `\w`). -/
def isWordChar (c : Char) : Bool :=
  c.isAlphanum || c == '_'

/-- Try the pattern `[A-Z]{2}\s+\d{5}` at the head of `l` and return the
two-letter group on success. In this pattern greedy `\s+` never needs
backtracking because no character is both whitespace and a digit. -/
def stateMatchAt : List Char → Option (List Char)
  | c1 :: c2 :: rest =>
      if c1.isUpper && c2.isUpper then
        let ws := rest.takeWhile Char.isWhitespace
        let tail := rest.dropWhile Char.isWhitespace
        if !ws.isEmpty && (tail.take 5).length == 5 && (tail.take 5).all Char.isDigit then
          some [c1, c2]
        else
          Option.none
      else
        Option.none
  | _ => Option.none

/-- Leftmost search for `\b([A-Z]{2})\s+\d{5}` (`re.search` of
`_anonymize_geographic`); `prev` is the character before the current
position, for the word boundary. -/
def searchState (prev : Option Char) : List Char → Option (List Char)
  | [] => Option.none
  | c :: rest =>
      let boundary := match prev with
        | Option.none => true
        | some p => !isWordChar p
      match if boundary then stateMatchAt (c :: rest) else Option.none with
      | some g => some g
      | Option.none => searchState (some c) rest

/-- Try the pattern `\d{5}` at the head of `l` and return the five digits. -/
def zipMatchAt (l : List Char) : Option (List Char) :=
  if (l.take 5).length == 5 && (l.take 5).all Char.isDigit then some (l.take 5)
  else Option.none

/-- Leftmost search for `\b(\d{5})` (`re.search` of `_anonymize_geographic`). -/
def searchZip (prev : Option Char) : List Char → Option (List Char)
  | [] => Option.none
  | c :: rest =>
      let boundary := match prev with
        | Option.none => true
        | some p => !isWordChar p
      match if boundary then zipMatchAt (c :: rest) else Option.none with
      | some g => some g
      | Option.none => searchZip (some c) rest

/-- The dict `_anonymize_geographic` returns: the state match and the
truncated zip match, each possibly `None`. -/
structure Geo where
  state : Option String
  zip3 : Option String
  deriving DecidableEq

/-- `PatientDataAnonymizer._anonymize_geographic`: `None` for a falsy
address, otherwise the two regex extractions with the zip truncated to its
first three digits. A non-string address raises `TypeError` in `re.search`;
the model returns `none` there (the patients table stores addresses as
TEXT, and no claim exercises that case). -/
def anonymizeGeographic (v : PyVal) : Option Geo :=
  match v with
  | .str s =>
      if s = "" then Option.none
      else
        some ⟨(searchState Option.none s.data).map (fun g => (⟨g⟩ : String)),
              (searchZip Option.none s.data).map (fun z => (⟨z.take 3⟩ : String))⟩
  | _ => Option.none

/-- `PatientDataAnonymizer._create_anonymized_id`:
`sha256(f"{salt}:{original_id}").hexdigest()[:16]`. -/
def createAnonymizedId (hash_salt original_id : String) : String :=
  ⟨(SHA256.sha256Hex (hash_salt ++ ":" ++ original_id)).data.take 16⟩

/-- The `safe_fields` literal of `_remove_identifiers`. -/
def safeFields : List String :=
  ["prescription_od_sphere", "prescription_od_cylinder", "prescription_od_axis",
   "prescription_os_sphere", "prescription_os_cylinder", "prescription_os_axis",
   "lens_type", "frame_type", "lens_material", "coating_type",
   "purchase_amount", "insurance_type_category"]

/-- Embed an optional string as the stored dict value (`None` when absent). -/
def optStrVal : Option String → PyVal
  | some s => .str s
  | Option.none => .none

/-- The `anonymized_patient_id` assignment of `_remove_identifiers`, made
when `"patient_id" in record`. -/
def anonIdBlock (hash_salt : String) (record : List (String × PyVal)) :
    List (String × PyVal) :=
  match List.lookup "patient_id" record with
  | some v => [("anonymized_patient_id", PyVal.str (createAnonymizedId hash_salt (pyStr v)))]
  | Option.none => []

/-- The `birth_year`/`age_group` assignments of `_remove_identifiers`, made
when `"date_of_birth" in record` and `_anonymize_date` returns a (nonempty)
year string; `int(birth_year_str)` is `Py.pyParseInt`. -/
def birthBlock (reference_year : ℤ) (record : List (String × PyVal)) :
    List (String × PyVal) :=
  match (List.lookup "date_of_birth" record).bind anonymizeDate with
  | some birthYearStr =>
      match Py.pyParseInt birthYearStr with
      | some birthYear =>
          [("birth_year", PyVal.int birthYear),
           ("age_group", PyVal.str (calculateAgeGroup birthYear reference_year))]
      | Option.none => []
  | Option.none => []

/-- The `state`/`zip3` assignments of `_remove_identifiers`, made when
`"address" in record`; the `geo` dict is always truthy when built, so the
`if geo:` test is the `Option` match on `anonymizeGeographic`. -/
def geoBlock (record : List (String × PyVal)) : List (String × PyVal) :=
  match (List.lookup "address" record).bind anonymizeGeographic with
  | some geo => [("state", optStrVal geo.state), ("zip3", optStrVal geo.zip3)]
  | Option.none => []

/-- The `safe_fields` copy loop of `_remove_identifiers`. -/
def safeBlock (record : List (String × PyVal)) : List (String × PyVal) :=
  safeFields.filterMap (fun f => (List.lookup f record).map (fun v => (f, v)))

/-- The `last_visit_year` assignment of `_remove_identifiers`, made when
`"last_visit_date" in record`. -/
def visitBlock (record : List (String × PyVal)) : List (String × PyVal) :=
  match List.lookup "last_visit_date" record with
  | some v => [("last_visit_year", optStrVal (anonymizeDate v))]
  | Option.none => []

/-- `PatientDataAnonymizer._remove_identifiers`, building the anonymized
record in source order; `reference_year` stands for `datetime.now().year`
inside `_calculate_age_group`. -/
def removeIdentifiers (hash_salt : String) (reference_year : ℤ)
    (record : List (String × PyVal)) : List (String × PyVal) :=
  anonIdBlock hash_salt record ++ birthBlock reference_year record ++
    geoBlock record ++ safeBlock record ++ visitBlock record

/-- The complete set of keys `_remove_identifiers` can emit. -/
def outputWhitelist : List String :=
  ["anonymized_patient_id", "birth_year", "age_group", "state", "zip3"] ++
    safeFields ++ ["last_visit_year"]

end Anonymizer

namespace SecureRAG

/-- The `pii_terms` literal of `SecureRAGEngine._contains_pii_terms`. -/
def piiTerms : List String :=
  ["name", "address", "phone", "email", "ssn",
   "social security", "date of birth", "dob",
   "patient id", "medical record", "specific patient",
   "john", "jane", "smith"]

/-- `SecureRAGEngine._contains_pii_terms`: any term a substring of the
lower-cased question. -/
def containsPiiTerms (question : String) : Bool :=
  piiTerms.any (fun t => Py.hasSubstr t.data (Py.pyLower question).data)

/-- The dict `query_patient_analytics` returns (the success branch also
carries a metadata dict no claim mentions). -/
structure PatientAnalyticsResult where
  answer : String
  error : Option String
  success : Bool
  deriving DecidableEq

/-- `SecureRAGEngine.query_patient_analytics`, with the result of
`self.patient_query_engine.query(question)` passed as `engine`
(`Except.error` when that call raises). The second component counts the
query-engine invocations, so the PII-rejected branch reports `0`. -/
def queryPatientAnalytics (engine : Except String String) (question : String) :
    PatientAnalyticsResult × ℕ :=
  if containsPiiTerms question then
    (⟨"I cannot provide information about specific individuals. I can only provide anonymized aggregate statistics and trends.",
      some "PII_REJECTED", false⟩, 0)
  else
    match engine with
    | .ok answer => (⟨answer, Option.none, true⟩, 1)
    | .error e =>
        (⟨"I apologize, but I encountered an error processing your query.", some e, false⟩, 1)

end SecureRAG

/-- A sample cached/processed response used by concrete instances. -/
def demoResponse : TenantRouter.Response := ⟨"cached answer", 5, true⟩

/-- The configuration `get_tenant_config` returns for tenant `t1` in an
environment with no relevant variables set. -/
def demoCfg : TenantRouter.TenantConfig :=
  { tenant_id := "t1"
    rate_limit := 60
    max_tokens_per_request := 500
    cache_enabled := true
    features :=
      [("sales_queries", true), ("inventory_queries", true),
       ("patient_analytics", true), ("ophthalmic_knowledge", true)]
    subscription_tier := "professional"
    sales_db := "postgresql://localhost/ils_db"
    inventory_db := "postgresql://localhost/ils_db"
    patient_db := "postgresql://localhost/ils_db" }

section SupportingLemmas

/-- Taking while not-colon across an append whose left part is colon-free
stops exactly at the separating colon. -/
theorem takeWhile_append_colon (l1 : List Char) (l2 : List Char)
    (h : ∀ c ∈ l1, (!(c == ':')) = true) :
    List.takeWhile (fun c => !(c == ':')) (l1 ++ ':' :: l2) = l1 := by
  induction l1 with
  | nil => simp [List.takeWhile]
  | cons c cs ih =>
      have hc := h c (by simp)
      simp only [List.cons_append, List.takeWhile_cons, hc, if_true]
      exact congrArg (c :: ·) (ih (fun x hx => h x (by simp [hx])))

/-- Two strings with equal character lists are equal. -/
theorem stringDataInj {s t : String} (h : s.data = t.data) : s = t := by
  cases s
  cases t
  exact congrArg String.mk h

/-- The character list of `cacheData` decomposes at the two separators. -/
theorem cacheData_data (t q qt : String) :
    (TenantRouter.cacheData t q qt).data =
      t.data ++ ':' :: (qt.data ++ ':' :: (Py.pyStrip (Py.pyLower q)).data) := by
  simp [TenantRouter.cacheData, String.data_append]

end SupportingLemmas

/-- C9: any question containing (case-insensitively, as a substring) a term
of the fixed PII list is answered with `success = False` and error
`PII_REJECTED`, and no query-engine call is issued; substring matching means
terms inside longer words (such as `name` inside `username`) also reject. -/
theorem claim_C9_pii_rejection :
    ∀ (question term : String) (engine : Except String String),
      term ∈ SecureRAG.piiTerms →
      Py.hasSubstr term.data (Py.pyLower question).data = true →
      (SecureRAG.queryPatientAnalytics engine question).1.success = false ∧
      (SecureRAG.queryPatientAnalytics engine question).1.error = some "PII_REJECTED" ∧
      (SecureRAG.queryPatientAnalytics engine question).2 = 0 := by
  intro question term engine hterm hsub
  have hc : SecureRAG.containsPiiTerms question = true :=
    List.any_eq_true.mpr ⟨term, hterm, hsub⟩
  simp [SecureRAG.queryPatientAnalytics, hc]

/-- Witness for C9 at the question `What is the username field?`, whose only
PII hit is the term `name` inside the word `username`. -/
theorem claim_C9_pii_rejection_witness :
    "name" ∈ SecureRAG.piiTerms ∧
    Py.hasSubstr "name".data (Py.pyLower "What is the username field?").data = true ∧
    ((SecureRAG.queryPatientAnalytics (.ok "ans") "What is the username field?").1.success = false ∧
     (SecureRAG.queryPatientAnalytics (.ok "ans") "What is the username field?").1.error =
       some "PII_REJECTED" ∧
     (SecureRAG.queryPatientAnalytics (.ok "ans") "What is the username field?").2 = 0) :=
  ⟨by decide, by decide,
   claim_C9_pii_rejection "What is the username field?" "name" (.ok "ans")
     (by decide) (by decide)⟩

/-- C2 (code-bug evidence): `check_duplicate_request` compares
`(utcnow - timestamp).seconds`, the day-wrapped seconds component, against
`cache_ttl`; an entry cached 86410 seconds (one day and ten seconds) before
the lookup is served even though its age exceeds the five-minute TTL. -/
theorem claim_C2_stale_cache_served :
    (TenantRouter.checkDuplicateRequest
        { request_cache :=
            [(TenantRouter.generateCacheKey "t1" "q" "sales", ⟨0, demoResponse, "t1"⟩)]
          rate_limits := []
          usage_stats := [] }
        "t1" "q" "sales" 86410).1 = some demoResponse ∧
    (86410 : ℤ) - 0 > TenantRouter.cacheTtl := by
  constructor
  · simp [TenantRouter.checkDuplicateRequest, List.lookup, TenantRouter.tdSeconds,
      TenantRouter.cacheTtl]
  · norm_num [TenantRouter.cacheTtl]

/-- C6 (counterexample): `route_query` deliberately raises
`HTTPException(403)` for an unknown or disabled query type, and the
registered `HTTPException` handler converts it into a response with status
403, not 500 — so not every exception raised while handling a request
becomes a 500 response. -/
theorem claim_C6_counterexample :
    TenantRouter.getTenantConfig (fun _ => Option.none) "t1" = some demoCfg ∧
    (TenantRouter.routeQueryWith demoCfg (.ok demoResponse) TenantRouter.initialState
        "t1" "q" "unknown_type" 0).1 =
      Except.error (TenantRouter.PyExn.http 403
        "Feature unknown_type not enabled for your subscription") ∧
    RagApi.handleException
        (TenantRouter.PyExn.http 403 "Feature unknown_type not enabled for your subscription") =
      ⟨403, "Feature unknown_type not enabled for your subscription"⟩ ∧
    (403 : ℕ) ≠ 500 := by
  refine ⟨by decide, ?_, rfl, by decide⟩
  have hf : TenantRouter.featureEnabled demoCfg "unknown_type" = false := by decide
  simp [TenantRouter.routeQueryWith, hf]

/-- C6 (amended): an exception raised while handling a request reaches the
registered handlers; a non-`HTTPException` is converted to a 500 response
carrying the error message, while a deliberately raised `HTTPException`
(403 feature-denied, 429 rate-limited, or the 500 the endpoint wrappers
raise around internal failures) is converted to a response with its own
status code and detail. -/
theorem claim_C6_amended :
    (∀ msg : String,
      RagApi.handleException (TenantRouter.PyExn.general msg) =
        ⟨500, "Internal server error: " ++ msg⟩) ∧
    (∀ (s : ℕ) (d : String),
      RagApi.handleException (TenantRouter.PyExn.http s d) = ⟨s, d⟩) ∧
    (∀ e : String,
      RagApi.endpointWrap (α := TenantRouter.Response) (.error e) =
          .error (.http 500 e) ∧
        RagApi.handleException (.http 500 e) = ⟨500, e⟩) :=
  ⟨fun _ => rfl, fun _ _ => rfl, fun _ => ⟨rfl, rfl⟩⟩

/-- C4 (counterexample): the hash preimage joins the fields with `:` without
escaping, so two requests with different tenant ids can produce the same
preimage and hence the same SHA-256 cache key; with such a state a response
cached for tenant `a:b` is served to tenant `a`. -/
theorem claim_C4_counterexample :
    ("a" : String) ≠ "a:b" ∧
    TenantRouter.generateCacheKey "a" "zz" "b:c" =
      TenantRouter.generateCacheKey "a:b" "zz" "c" ∧
    (TenantRouter.checkDuplicateRequest
        { request_cache :=
            [(TenantRouter.generateCacheKey "a:b" "zz" "c", ⟨0, demoResponse, "a:b"⟩)]
          rate_limits := []
          usage_stats := [] }
        "a" "zz" "b:c" 10).1 = some demoResponse := by
  have hkey : TenantRouter.generateCacheKey "a" "zz" "b:c" =
      TenantRouter.generateCacheKey "a:b" "zz" "c" := by
    unfold TenantRouter.generateCacheKey
    exact congrArg SHA256.sha256Hex (by decide)
  refine ⟨by decide, hkey, ?_⟩
  simp [TenantRouter.checkDuplicateRequest, hkey, List.lookup, TenantRouter.tdSeconds,
    TenantRouter.cacheTtl]

/-- C4 (amended): colon-free distinct tenant ids always give distinct hash
preimages (hence distinct cache keys short of a SHA-256 collision), and
within one tenant and query type two queries equal up to letter case and
surrounding whitespace share one key. -/
theorem claim_C4_amended :
    (∀ t1 t2 q1 q2 qt1 qt2 : String,
      ':' ∉ t1.data → ':' ∉ t2.data → t1 ≠ t2 →
      TenantRouter.cacheData t1 q1 qt1 ≠ TenantRouter.cacheData t2 q2 qt2) ∧
    (∀ tid q1 q2 qt : String,
      Py.pyStrip (Py.pyLower q1) = Py.pyStrip (Py.pyLower q2) →
      TenantRouter.generateCacheKey tid q1 qt = TenantRouter.generateCacheKey tid q2 qt) := by
  constructor
  · intro t1 t2 q1 q2 qt1 qt2 h1 h2 hne heq
    have hd := congrArg String.data heq
    rw [cacheData_data, cacheData_data] at hd
    have e1 := takeWhile_append_colon t1.data
      (qt1.data ++ ':' :: (Py.pyStrip (Py.pyLower q1)).data)
      (fun c hc => by
        simp only [Bool.not_eq_true', beq_eq_false_iff_ne]
        intro hcol
        exact h1 (hcol ▸ hc))
    have e2 := takeWhile_append_colon t2.data
      (qt2.data ++ ':' :: (Py.pyStrip (Py.pyLower q2)).data)
      (fun c hc => by
        simp only [Bool.not_eq_true', beq_eq_false_iff_ne]
        intro hcol
        exact h2 (hcol ▸ hc))
    exact hne (stringDataInj (e1.symm.trans (hd ▸ e2)))
  · intro tid q1 q2 qt h
    unfold TenantRouter.generateCacheKey TenantRouter.cacheData
    rw [h]

/-- Witness for C4 (amended) at colon-free tenant ids `tenantA`, `tenantB`
and at the case/whitespace variants `A b ` and `a B` of one query. -/
theorem claim_C4_amended_witness :
    (':' ∉ ("tenantA" : String).data ∧ ':' ∉ ("tenantB" : String).data ∧
      ("tenantA" : String) ≠ "tenantB" ∧
      TenantRouter.cacheData "tenantA" "q" "sales" ≠
        TenantRouter.cacheData "tenantB" "q" "sales") ∧
    (Py.pyStrip (Py.pyLower "A b ") = Py.pyStrip (Py.pyLower " a b") ∧
      TenantRouter.generateCacheKey "t" "A b " "sales" =
        TenantRouter.generateCacheKey "t" " a b" "sales") :=
  ⟨⟨by decide, by decide, by decide,
    claim_C4_amended.1 "tenantA" "tenantB" "q" "q" "sales" "sales"
      (by decide) (by decide) (by decide)⟩,
   ⟨by decide,
    claim_C4_amended.2 "t" "A b " " a b" "sales" (by decide)⟩⟩

section RouteQueryShape

/-- When the feature gate passes, `route_query` can only return a result, a
429 rate-limit exception, or re-raise the processing exception. -/
theorem routeQuery_result_cases (cfg : TenantRouter.TenantConfig)
    (pq : Except String TenantRouter.Response) (st : TenantRouter.RouterState)
    (t q qt : String) (now : TenantRouter.Time)
    (hf : TenantRouter.featureEnabled cfg qt = true) :
    (∃ r, (TenantRouter.routeQueryWith cfg pq st t q qt now).1 = .ok r) ∨
    (TenantRouter.routeQueryWith cfg pq st t q qt now).1 =
      .error (.http 429 "Rate limit exceeded. Please try again later.") ∨
    (∃ e, (TenantRouter.routeQueryWith cfg pq st t q qt now).1 = .error (.general e)) := by
  simp only [TenantRouter.routeQueryWith, hf, if_true]
  split
  · split
    · exact Or.inl ⟨_, rfl⟩
    · match pq with
      | .ok r => exact Or.inl ⟨_, rfl⟩
      | .error e => exact Or.inr (Or.inr ⟨_, rfl⟩)
  · exact Or.inr (Or.inl rfl)

/-- `route_query` raises a 403 exactly when the feature gate fails. -/
theorem routeQuery_403_iff (cfg : TenantRouter.TenantConfig)
    (pq : Except String TenantRouter.Response) (st : TenantRouter.RouterState)
    (t q qt : String) (now : TenantRouter.Time) :
    (∃ d, (TenantRouter.routeQueryWith cfg pq st t q qt now).1 =
        Except.error (TenantRouter.PyExn.http 403 d)) ↔
      TenantRouter.featureEnabled cfg qt = false := by
  cases hfe : TenantRouter.featureEnabled cfg qt with
  | false =>
      simp only [TenantRouter.routeQueryWith, hfe, Bool.false_eq_true, if_false]
      simp
  | true =>
      simp only [Bool.true_eq_false, iff_false, not_exists]
      intro d hd
      rcases routeQuery_result_cases cfg pq st t q qt now hfe with ⟨r, hr⟩ | hr | ⟨e, hr⟩ <;>
        rw [hd] at hr <;> simp at hr

end RouteQueryShape

/-- C10: `get_tenant_config` always returns a configuration with all four
feature flags enabled, caching enabled, and a 500-token budget; hence the
403 feature-denied branch of `route_query` fires exactly for query types
outside the four known ones. -/
theorem claim_C10_tenant_config :
    ∀ (env : TenantRouter.Env) (tenant_id : String) (cfg : TenantRouter.TenantConfig),
      TenantRouter.getTenantConfig env tenant_id = some cfg →
      (List.lookup "sales_queries" cfg.features = some true ∧
       List.lookup "inventory_queries" cfg.features = some true ∧
       List.lookup "patient_analytics" cfg.features = some true ∧
       List.lookup "ophthalmic_knowledge" cfg.features = some true) ∧
      cfg.cache_enabled = true ∧
      cfg.max_tokens_per_request = 500 ∧
      (∀ query_type : String,
        TenantRouter.featureEnabled cfg query_type = true ↔
          query_type ∈ ["sales", "inventory", "patient_analytics", "ophthalmic_knowledge"]) ∧
      (∀ (pq : Except String TenantRouter.Response) (st : TenantRouter.RouterState)
          (t q : String) (qt : String) (now : TenantRouter.Time),
        (∃ d, (TenantRouter.routeQueryWith cfg pq st t q qt now).1 =
            Except.error (TenantRouter.PyExn.http 403 d)) ↔
          qt ∉ ["sales", "inventory", "patient_analytics", "ophthalmic_knowledge"]) := by
  intro env tenant_id cfg hcfg
  have hfeat : cfg.features =
      [("sales_queries", true), ("inventory_queries", true),
       ("patient_analytics", true), ("ophthalmic_knowledge", true)] := by
    unfold TenantRouter.getTenantConfig at hcfg
    rcases hp : Py.pyParseInt (TenantRouter.getenvD env
        ("TENANT_" ++ tenant_id ++ "_RATE_LIMIT") "60") with _ | rl <;> rw [hp] at hcfg
    · cases hcfg
    · cases hcfg
      rfl
  have hcache : cfg.cache_enabled = true := by
    unfold TenantRouter.getTenantConfig at hcfg
    rcases hp : Py.pyParseInt (TenantRouter.getenvD env
        ("TENANT_" ++ tenant_id ++ "_RATE_LIMIT") "60") with _ | rl <;> rw [hp] at hcfg
    · cases hcfg
    · cases hcfg
      rfl
  have htok : cfg.max_tokens_per_request = 500 := by
    unfold TenantRouter.getTenantConfig at hcfg
    rcases hp : Py.pyParseInt (TenantRouter.getenvD env
        ("TENANT_" ++ tenant_id ++ "_RATE_LIMIT") "60") with _ | rl <;> rw [hp] at hcfg
    · cases hcfg
    · cases hcfg
      rfl
  have henabled : ∀ query_type : String,
      TenantRouter.featureEnabled cfg query_type = true ↔
        query_type ∈ ["sales", "inventory", "patient_analytics", "ophthalmic_knowledge"] := by
    intro qt
    have henb : ∀ fkey : String, TenantRouter.featureMap qt = some fkey →
        TenantRouter.featureEnabled cfg qt = (List.lookup fkey cfg.features).getD false := by
      intro fkey hm
      unfold TenantRouter.featureEnabled
      rw [hm]
    by_cases h1 : qt = "sales"
    · subst h1
      rw [henb "sales_queries" (by decide), hfeat]
      exact iff_of_true (by decide) (by decide)
    · by_cases h2 : qt = "inventory"
      · subst h2
        rw [henb "inventory_queries" (by decide), hfeat]
        exact iff_of_true (by decide) (by decide)
      · by_cases h3 : qt = "patient_analytics"
        · subst h3
          rw [henb "patient_analytics" (by decide), hfeat]
          exact iff_of_true (by decide) (by decide)
        · by_cases h4 : qt = "ophthalmic_knowledge"
          · subst h4
            rw [henb "ophthalmic_knowledge" (by decide), hfeat]
            exact iff_of_true (by decide) (by decide)
          · have b1 : (qt == "sales") = false := beq_eq_false_iff_ne.mpr h1
            have b2 : (qt == "inventory") = false := beq_eq_false_iff_ne.mpr h2
            have b3 : (qt == "patient_analytics") = false := beq_eq_false_iff_ne.mpr h3
            have b4 : (qt == "ophthalmic_knowledge") = false := beq_eq_false_iff_ne.mpr h4
            have hmap : TenantRouter.featureMap qt = none := by
              simp [TenantRouter.featureMap, List.lookup, b1, b2, b3, b4]
            simp [TenantRouter.featureEnabled, hmap, h1, h2, h3, h4]
  refine ⟨by rw [hfeat]; exact ⟨by decide, by decide, by decide, by decide⟩, hcache, htok, henabled, ?_⟩
  intro pq st t q qt now
  rw [routeQuery_403_iff]
  rw [← henabled qt]
  cases TenantRouter.featureEnabled cfg qt <;> simp

/-- Witness for C10 in an empty environment. -/
theorem claim_C10_tenant_config_witness :
    TenantRouter.getTenantConfig (fun _ => Option.none) "t1" = some demoCfg ∧
    (List.lookup "sales_queries" demoCfg.features = some true ∧
     List.lookup "inventory_queries" demoCfg.features = some true ∧
     List.lookup "patient_analytics" demoCfg.features = some true ∧
     List.lookup "ophthalmic_knowledge" demoCfg.features = some true) ∧
    demoCfg.cache_enabled = true ∧
    demoCfg.max_tokens_per_request = 500 ∧
    (∀ query_type : String,
      TenantRouter.featureEnabled demoCfg query_type = true ↔
        query_type ∈ ["sales", "inventory", "patient_analytics", "ophthalmic_knowledge"]) ∧
    (∀ (pq : Except String TenantRouter.Response) (st : TenantRouter.RouterState)
        (t q : String) (qt : String) (now : TenantRouter.Time),
      (∃ d, (TenantRouter.routeQueryWith demoCfg pq st t q qt now).1 =
          Except.error (TenantRouter.PyExn.http 403 d)) ↔
        qt ∉ ["sales", "inventory", "patient_analytics", "ophthalmic_knowledge"]) :=
  ⟨by decide, claim_C10_tenant_config (fun _ => Option.none) "t1" demoCfg (by decide)⟩

section CacheBound

/-- A dict update grows an association list by at most one binding. -/
theorem setAssoc_length_le (l : List (String × α)) (k : String) (v : α) :
    (Py.setAssoc l k v).length ≤ l.length + 1 := by
  unfold Py.setAssoc
  split
  · simp
  · simp

/-- The cache size after `cache_response`: the insert-or-replace size, less
100 when that size exceeds 1000. -/
theorem cacheResponse_cache_length (st : TenantRouter.RouterState) (t q qt : String)
    (r : TenantRouter.Response) (now : TenantRouter.Time) :
    (TenantRouter.cacheResponse st t q qt r now).request_cache.length =
      (if 1000 <
          (Py.setAssoc st.request_cache (TenantRouter.generateCacheKey t q qt)
            ⟨now, r, t⟩).length then
        (Py.setAssoc st.request_cache (TenantRouter.generateCacheKey t q qt)
            ⟨now, r, t⟩).length - 100
       else
        (Py.setAssoc st.request_cache (TenantRouter.generateCacheKey t q qt)
            ⟨now, r, t⟩).length) := by
  simp only [TenantRouter.cacheResponse]
  split
  · rw [List.length_drop, List.length_mergeSort]
  · rfl

/-- `cache_response` keeps the cache within 1000 entries. -/
theorem cacheResponse_bound (st : TenantRouter.RouterState) (t q qt : String)
    (r : TenantRouter.Response) (now : TenantRouter.Time)
    (h : st.request_cache.length ≤ 1000) :
    (TenantRouter.cacheResponse st t q qt r now).request_cache.length ≤ 1000 := by
  have hins := setAssoc_length_le st.request_cache (TenantRouter.generateCacheKey t q qt)
    ⟨now, r, t⟩
  rw [cacheResponse_cache_length]
  split <;> omega

/-- `check_duplicate_request` never grows the cache. -/
theorem checkDuplicate_cache_le (st : TenantRouter.RouterState) (t q qt : String)
    (now : TenantRouter.Time) :
    (TenantRouter.checkDuplicateRequest st t q qt now).2.request_cache.length ≤
      st.request_cache.length := by
  simp only [TenantRouter.checkDuplicateRequest]
  split
  · split
    · exact le_refl _
    · simpa using List.length_eraseP_le st.request_cache
  · exact le_refl _

/-- `route_query` keeps the cache within 1000 entries. -/
theorem routeQuery_cache_bound (cfg : TenantRouter.TenantConfig)
    (pq : Except String TenantRouter.Response) (st : TenantRouter.RouterState)
    (t q qt : String) (now : TenantRouter.Time)
    (h : st.request_cache.length ≤ 1000) :
    (TenantRouter.routeQueryWith cfg pq st t q qt now).2.1.request_cache.length ≤ 1000 := by
  by_cases hce : cfg.cache_enabled <;>
    simp only [TenantRouter.routeQueryWith, hce, if_true, if_false, Bool.false_eq_true] <;>
    repeat' split
  all_goals
    first
      | exact h
      | exact le_trans (checkDuplicate_cache_le _ _ _ _ _) h
      | exact cacheResponse_bound _ _ _ _ _ _ (le_trans (checkDuplicate_cache_le _ _ _ _ _) h)

end CacheBound

/-- C8: the deduplication cache respects the 1000-entry bound. Inserting an
entry that pushes the size above 1000 makes `cache_response` drop the 100
oldest-timestamped entries, so from any state within the bound the state
after `cache_response` is within the bound; `check_duplicate_request` can
only shrink the cache; and `route_query`, which touches the cache through
those two operations only, preserves the bound as well. -/
theorem claim_C8_cache_bound :
    (∀ (st : TenantRouter.RouterState) (t q qt : String) (r : TenantRouter.Response)
        (now : TenantRouter.Time),
      (TenantRouter.cacheResponse st t q qt r now).request_cache.length =
        (if 1000 <
            (Py.setAssoc st.request_cache (TenantRouter.generateCacheKey t q qt)
              ⟨now, r, t⟩).length then
          (Py.setAssoc st.request_cache (TenantRouter.generateCacheKey t q qt)
              ⟨now, r, t⟩).length - 100
         else
          (Py.setAssoc st.request_cache (TenantRouter.generateCacheKey t q qt)
              ⟨now, r, t⟩).length)) ∧
    (∀ (st : TenantRouter.RouterState) (t q qt : String) (r : TenantRouter.Response)
        (now : TenantRouter.Time),
      st.request_cache.length ≤ 1000 →
      (TenantRouter.cacheResponse st t q qt r now).request_cache.length ≤ 1000) ∧
    (∀ (st : TenantRouter.RouterState) (t q qt : String) (now : TenantRouter.Time),
      (TenantRouter.checkDuplicateRequest st t q qt now).2.request_cache.length ≤
        st.request_cache.length) ∧
    (∀ (cfg : TenantRouter.TenantConfig) (pq : Except String TenantRouter.Response)
        (st : TenantRouter.RouterState) (t q qt : String) (now : TenantRouter.Time),
      st.request_cache.length ≤ 1000 →
      (TenantRouter.routeQueryWith cfg pq st t q qt now).2.1.request_cache.length ≤ 1000) :=
  ⟨cacheResponse_cache_length,
   cacheResponse_bound,
   checkDuplicate_cache_le,
   routeQuery_cache_bound⟩

/-- Witness for C8 starting from the freshly constructed empty router. -/
theorem claim_C8_cache_bound_witness :
    TenantRouter.initialState.request_cache.length ≤ 1000 ∧
    (TenantRouter.cacheResponse TenantRouter.initialState "t1" "q" "sales"
        demoResponse 0).request_cache.length ≤ 1000 ∧
    (TenantRouter.routeQueryWith demoCfg (.ok demoResponse) TenantRouter.initialState
        "t1" "q" "sales" 0).2.1.request_cache.length ≤ 1000 :=
  ⟨by decide,
   claim_C8_cache_bound.2.1 TenantRouter.initialState "t1" "q" "sales" demoResponse 0
     (by decide),
   claim_C8_cache_bound.2.2.2 demoCfg (.ok demoResponse) TenantRouter.initialState
     "t1" "q" "sales" 0 (by decide)⟩

section SearchLemmas

/-- Membership survives sorting and truncation. -/
theorem mem_take_mergeSort {α : Type} {le : α → α → Bool} {l : List α} {n : ℕ} {x : α}
    (hx : x ∈ (l.mergeSort le).take n) : x ∈ l :=
  (List.mergeSort_perm l le).mem_iff.mp (List.mem_of_mem_take hx)

/-- Sorting by a rational key and truncating yields a key-sorted list. -/
theorem pairwise_take_mergeSort_key {α : Type} (key : α → ℚ) (l : List α) (n : ℕ) :
    List.Pairwise (fun a b => key a ≤ key b)
      ((l.mergeSort (fun a b => key a ≤ key b)).take n) := by
  have h := @List.sorted_mergeSort α (fun a b => decide (key a ≤ key b))
    (fun a b c hab hbc => by
      simp only [decide_eq_true_eq] at hab hbc ⊢
      exact le_trans hab hbc)
    (fun a b => by simpa using le_total (key a) (key b)) l
  have h2 : List.Pairwise (fun a b => key a ≤ key b) (l.mergeSort (fun a b => key a ≤ key b)) :=
    List.Pairwise.imp (by simp) h
  exact h2.sublist (List.take_sublist n _)

end SearchLemmas

/-- C5: `search_knowledge_base` validates its arguments before issuing any
query — a disconnected service raises `RuntimeError` and out-of-range
arguments raise `ValueError`, in source order, with zero queries issued —
and on valid arguments issues one query whose result rows all belong to the
requested company, are active, have a non-null embedding and have similarity
(`1 - distance`) at least the threshold; at most `limit` rows are returned,
in non-increasing similarity order. -/
theorem claim_C5_search_knowledge_base :
    (∀ (table : List RAGService.KBRow) (dist : RAGService.Dist) (c : String)
        (q : List ℚ) (lim : ℤ) (thr : ℚ),
      RAGService.searchKnowledgeBase false table dist c q lim thr =
        (.error (.runtimeError "Database not connected. Call connect() first."), 0)) ∧
    (∀ (table : List RAGService.KBRow) (dist : RAGService.Dist)
        (q : List ℚ) (lim : ℤ) (thr : ℚ),
      RAGService.searchKnowledgeBase true table dist "" q lim thr =
        (.error (.valueError "company_id is required"), 0)) ∧
    (∀ (table : List RAGService.KBRow) (dist : RAGService.Dist) (c : String)
        (lim : ℤ) (thr : ℚ), c ≠ "" →
      RAGService.searchKnowledgeBase true table dist c [] lim thr =
        (.error (.valueError "query_embedding is required"), 0)) ∧
    (∀ (table : List RAGService.KBRow) (dist : RAGService.Dist) (c : String)
        (q : List ℚ) (lim : ℤ) (thr : ℚ), c ≠ "" → q ≠ [] → (lim < 1 ∨ 100 < lim) →
      RAGService.searchKnowledgeBase true table dist c q lim thr =
        (.error (.valueError "limit must be between 1 and 100"), 0)) ∧
    (∀ (table : List RAGService.KBRow) (dist : RAGService.Dist) (c : String)
        (q : List ℚ) (lim : ℤ) (thr : ℚ), c ≠ "" → q ≠ [] →
        1 ≤ lim → lim ≤ 100 → (thr < 0 ∨ 1 < thr) →
      RAGService.searchKnowledgeBase true table dist c q lim thr =
        (.error (.valueError "threshold must be between 0.0 and 1.0"), 0)) ∧
    (∀ (table : List RAGService.KBRow) (dist : RAGService.Dist) (c : String)
        (q : List ℚ) (lim : ℤ) (thr : ℚ),
      c ≠ "" → q ≠ [] → 1 ≤ lim → lim ≤ 100 → 0 ≤ thr → thr ≤ 1 →
      ∃ rows : List (RAGService.KBRow × ℚ),
        RAGService.searchKnowledgeBase true table dist c q lim thr = (.ok rows, 1) ∧
        (∀ p ∈ rows,
          p.1 ∈ table ∧ p.1.company_id = c ∧ p.1.is_active = true ∧
          p.1.embedding.isSome = true ∧
          p.2 = 1 - dist (p.1.embedding.getD []) q ∧ thr ≤ p.2) ∧
        rows.length ≤ lim.toNat ∧
        List.Pairwise (fun p1 p2 : RAGService.KBRow × ℚ => p2.2 ≤ p1.2) rows) := by
  refine ⟨fun table dist c q lim thr => rfl,
          fun table dist q lim thr => rfl,
          ?_, ?_, ?_, ?_⟩
  · intro table dist c lim thr hc
    simp [RAGService.searchKnowledgeBase, hc]
  · intro table dist c q lim thr hc hq hlim
    simp [RAGService.searchKnowledgeBase, hc, hq, hlim]
  · intro table dist c q lim thr hc hq hl1 hl2 hthr
    have hnlim : ¬(lim < 1 ∨ 100 < lim) := by omega
    simp [RAGService.searchKnowledgeBase, hc, hq, hnlim, hthr]
  · intro table dist c q lim thr hc hq hl1 hl2 ht0 ht1
    have hnlim : ¬(lim < 1 ∨ 100 < lim) := by omega
    have hnthr : ¬(thr < 0 ∨ 1 < thr) := by
      push_neg
      exact ⟨ht0, ht1⟩
    refine ⟨(((table.filter (fun r =>
        r.company_id == c && r.is_active && r.embedding.isSome &&
          decide (thr ≤ 1 - dist (r.embedding.getD []) q))).mergeSort (fun r1 r2 =>
        dist (r1.embedding.getD []) q ≤ dist (r2.embedding.getD []) q)).take lim.toNat).map
        (fun r => (r, 1 - dist (r.embedding.getD []) q)), ?_, ?_, ?_, ?_⟩
    · simp [RAGService.searchKnowledgeBase, hc, hq, hnlim, hnthr]
    · intro p hp
      simp only [List.mem_map] at hp
      obtain ⟨r, hr, hpr⟩ := hp
      have hrow : r ∈ table.filter (fun r =>
          r.company_id == c && r.is_active && r.embedding.isSome &&
            decide (thr ≤ 1 - dist (r.embedding.getD []) q)) :=
        mem_take_mergeSort hr
      rw [List.mem_filter] at hrow
      obtain ⟨hmem, hcond⟩ := hrow
      simp only [Bool.and_eq_true, beq_iff_eq, decide_eq_true_eq] at hcond
      subst hpr
      exact ⟨hmem, hcond.1.1.1, hcond.1.1.2, hcond.1.2, rfl, hcond.2⟩
    · rw [List.length_map]
      exact List.length_take_le _ _
    · rw [List.pairwise_map]
      have h := pairwise_take_mergeSort_key
        (fun r : RAGService.KBRow => dist (r.embedding.getD []) q)
        (table.filter (fun r =>
          r.company_id == c && r.is_active && r.embedding.isSome &&
            decide (thr ≤ 1 - dist (r.embedding.getD []) q)))
        lim.toNat
      exact h.imp (fun hab => by dsimp only; linarith)

/-- Witness for C5: a one-row table under a constant distance function, plus
the error paths at concrete bad arguments. -/
theorem claim_C5_search_knowledge_base_witness :
    (("c1" : String) ≠ "" ∧ ([(1 : ℚ)] : List ℚ) ≠ [] ∧ (1 : ℤ) ≤ 5 ∧ (5 : ℤ) ≤ 100 ∧
      (0 : ℚ) ≤ 1/2 ∧ (1/2 : ℚ) ≤ 1 ∧
      ∃ rows : List (RAGService.KBRow × ℚ),
        RAGService.searchKnowledgeBase true
            [⟨1, "f", "body", Option.none, 0, "c1", true, some [(1 : ℚ)]⟩]
            (fun _ _ => 0) "c1" [(1 : ℚ)] 5 (1/2) = (.ok rows, 1) ∧
        (∀ p ∈ rows,
          p.1 ∈ [(⟨1, "f", "body", Option.none, 0, "c1", true, some [(1 : ℚ)]⟩ :
              RAGService.KBRow)] ∧
          p.1.company_id = "c1" ∧ p.1.is_active = true ∧ p.1.embedding.isSome = true ∧
          p.2 = 1 - (fun _ _ => (0 : ℚ)) (p.1.embedding.getD []) [(1 : ℚ)] ∧ (1/2 : ℚ) ≤ p.2) ∧
        rows.length ≤ (5 : ℤ).toNat ∧
        List.Pairwise (fun p1 p2 : RAGService.KBRow × ℚ => p2.2 ≤ p1.2) rows) ∧
    (("c1" : String) ≠ "" ∧ ([(1 : ℚ)] : List ℚ) ≠ [] ∧ ((0 : ℤ) < 1 ∨ (100 : ℤ) < 0) ∧
      RAGService.searchKnowledgeBase true [] (fun _ _ => 0) "c1" [(1 : ℚ)] 0 (1/2) =
        (.error (.valueError "limit must be between 1 and 100"), 0)) :=
  ⟨⟨by decide, by decide, by decide, by decide, by norm_num, by norm_num,
    claim_C5_search_knowledge_base.2.2.2.2.2
      [⟨1, "f", "body", Option.none, 0, "c1", true, some [(1 : ℚ)]⟩]
      (fun _ _ => 0) "c1" [(1 : ℚ)] 5 (1/2)
      (by decide) (by decide) (by decide) (by decide) (by norm_num) (by norm_num)⟩,
   ⟨by decide, by decide, by norm_num,
    claim_C5_search_knowledge_base.2.2.2.1 [] (fun _ _ => 0) "c1" [(1 : ℚ)] 0 (1/2)
      (by decide) (by decide) (by norm_num)⟩⟩

section RateLimitWindow

/-- Invariant-carrying induction over a sequence of `check_rate_limit`
calls at nondecreasing instants: when the stored timestamp list is exactly
the accepted instants within the last minute of `last`, every accepted
instant is at most `last`, and every one-minute window holds at most
`max maxReq 0` accepted instants, the same window bound holds after
processing the remaining calls. -/
theorem rlRunFrom_window_bound (maxReq : ℤ) :
    ∀ (calls : List TenantRouter.Time) (last : ℤ) (accepted : List TenantRouter.Time),
      List.Chain (· ≤ ·) last calls →
      (∀ t ∈ accepted, t ≤ last) →
      (∀ a : ℤ, ((accepted.countP
          (fun t => decide (a < t) && decide (t ≤ a + 60))) : ℤ) ≤ max maxReq 0) →
      ∀ a : ℤ, (((TenantRouter.rlRunFrom maxReq
            (accepted.filter (fun t => decide (last - 60 < t))) accepted calls).2.countP
          (fun t => decide (a < t) && decide (t ≤ a + 60))) : ℤ) ≤ max maxReq 0 := by
  intro calls
  induction calls with
  | nil =>
      intro last accepted _ _ hbound a
      simpa [TenantRouter.rlRunFrom] using hbound a
  | cons now rest ih =>
      intro last accepted hchain hle hbound a
      rw [List.chain_cons] at hchain
      obtain ⟨hln, hchain⟩ := hchain
      have hfilter : (accepted.filter (fun t => decide (last - 60 < t))).filter
          (fun t => decide (now - 60 < t)) =
          accepted.filter (fun t => decide (now - 60 < t)) := by
        rw [List.filter_filter]
        refine List.filter_congr ?_
        intro x _
        by_cases hx : now - 60 < x
        · have hx2 : last - 60 < x := lt_of_le_of_lt (by omega : last - 60 ≤ now - 60) hx
          simp [hx, hx2]
        · simp [hx]
      simp only [TenantRouter.rlRunFrom, TenantRouter.checkRateLimit, hfilter]
      by_cases hacc : maxReq ≤ ((accepted.filter (fun t => decide (now - 60 < t))).length : ℤ)
      · rw [if_pos hacc]
        simp only [Bool.false_eq_true, if_false]
        exact ih now accepted (by simpa using hchain)
          (fun t ht => le_trans (hle t ht) hln) hbound a
      · rw [if_neg hacc]
        simp only [if_true]
        have hstep : (accepted.filter (fun t => decide (now - 60 < t))) ++ [now] =
            (accepted ++ [now]).filter (fun t => decide (now - 60 < t)) := by
          rw [List.filter_append]
          simp
        rw [hstep]
        refine ih now (accepted ++ [now]) (by simpa using hchain) ?_ ?_ a
        · intro t ht
          rcases List.mem_append.mp ht with h | h
          · exact le_trans (hle t h) hln
          · simp at h
            exact le_of_eq h
        · intro b
          rw [List.countP_append]
          by_cases hw : (decide (b < now) && decide (now ≤ b + 60)) = true
          · have hmono : accepted.countP (fun t => decide (b < t) && decide (t ≤ b + 60)) ≤
                accepted.countP (fun t => decide (now - 60 < t)) := by
              refine List.countP_mono_left ?_
              intro x _ hx
              simp only [Bool.and_eq_true, decide_eq_true_eq] at hx hw ⊢
              have hb : now - 60 ≤ b := by linarith [hw.2]
              exact lt_of_le_of_lt hb hx.1
            have hlen : accepted.countP (fun t => decide (now - 60 < t)) =
                (accepted.filter (fun t => decide (now - 60 < t))).length :=
              List.countP_eq_length_filter _ _
            have hcount : ((accepted.countP
                (fun t => decide (b < t) && decide (t ≤ b + 60))) : ℤ) + 1 ≤ maxReq := by
              have := hmono
              rw [hlen] at this
              have hz : ((accepted.countP (fun t => decide (b < t) && decide (t ≤ b + 60))) : ℤ) ≤
                  ((accepted.filter (fun t => decide (now - 60 < t))).length : ℤ) := by
                exact_mod_cast this
              omega
            have hone : ([now].countP (fun t => decide (b < t) && decide (t ≤ b + 60))) = 1 := by
              simp [List.countP_cons, hw]
            rw [hone]
            push_cast
            have hmax : maxReq ≤ max maxReq 0 := le_max_left _ _
            omega
          · have hzero : ([now].countP (fun t => decide (b < t) && decide (t ≤ b + 60))) = 0 := by
              simp [List.countP_cons, hw]
            rw [hzero]
            simpa using hbound b

end RateLimitWindow

/-- C1: a `check_rate_limit` call keeps exactly the timestamps less than one
minute old, returns `True` and appends the current instant precisely when
strictly fewer than `max_requests_per_minute` remain, and returns `False`
leaving only the filtered timestamps otherwise; consequently, over any
sequence of calls at nondecreasing instants with a fixed nonnegative limit,
every one-minute window `(a, a+60]` contains at most
`max_requests_per_minute` accepted requests. -/
theorem claim_C1_rate_limit :
    (∀ (maxReq : ℤ) (st : List TenantRouter.Time) (now : TenantRouter.Time),
      ((TenantRouter.checkRateLimit maxReq st now).1 = true ↔
        ((st.filter (fun t => decide (now - 60 < t))).length : ℤ) < maxReq) ∧
      (TenantRouter.checkRateLimit maxReq st now).2 =
        (if (TenantRouter.checkRateLimit maxReq st now).1 = true then
          st.filter (fun t => decide (now - 60 < t)) ++ [now]
         else st.filter (fun t => decide (now - 60 < t)))) ∧
    (∀ (maxReq : ℤ) (calls : List TenantRouter.Time),
      0 ≤ maxReq → calls.Chain' (· ≤ ·) →
      ∀ a : ℤ, (((TenantRouter.rlRun maxReq calls).2.countP
          (fun t => decide (a < t) && decide (t ≤ a + 60))) : ℤ) ≤ maxReq) := by
  constructor
  · intro maxReq st now
    constructor
    · unfold TenantRouter.checkRateLimit
      by_cases h : maxReq ≤ ((st.filter (fun t => decide (now - 60 < t))).length : ℤ)
      · rw [if_pos h]
        simp
        omega
      · rw [if_neg h]
        simp
        omega
    · unfold TenantRouter.checkRateLimit
      by_cases h : maxReq ≤ ((st.filter (fun t => decide (now - 60 < t))).length : ℤ)
      · rw [if_pos h]
        simp
      · rw [if_neg h]
        simp
  · intro maxReq calls h0 hchain a
    have hmax : max maxReq 0 = maxReq := max_eq_left h0
    cases calls with
    | nil =>
        simp [TenantRouter.rlRun, TenantRouter.rlRunFrom]
        omega
    | cons c rest =>
        have hch : List.Chain (· ≤ ·) c (c :: rest) :=
          List.Chain.cons (le_refl c) hchain
        have h := rlRunFrom_window_bound maxReq (c :: rest) c []
          hch (by simp) (by intro b; simp) a
        rw [hmax] at h
        simpa [TenantRouter.rlRun] using h

/-- Witness for C1: limit 2 over the call instants 0, 10, 20, 70. -/
theorem claim_C1_rate_limit_witness :
    (((TenantRouter.checkRateLimit 2 [0, 10] 20).1 = true ↔
        ((([0, 10] : List ℤ).filter (fun t => decide ((20 : ℤ) - 60 < t))).length : ℤ) < 2) ∧
      (TenantRouter.checkRateLimit 2 [0, 10] 20).2 =
        (if (TenantRouter.checkRateLimit 2 [0, 10] 20).1 = true then
          ([0, 10] : List ℤ).filter (fun t => decide ((20 : ℤ) - 60 < t)) ++ [20]
         else ([0, 10] : List ℤ).filter (fun t => decide ((20 : ℤ) - 60 < t)))) ∧
    ((0 : ℤ) ≤ 2 ∧ ([0, 10, 20, 70] : List ℤ).Chain' (· ≤ ·) ∧
      (((TenantRouter.rlRun 2 [0, 10, 20, 70]).2.countP
          (fun t => decide ((5 : ℤ) < t) && decide (t ≤ (5 : ℤ) + 60))) : ℤ) ≤ 2) :=
  ⟨claim_C1_rate_limit.1 2 [0, 10] 20,
   by decide, by norm_num [List.chain'_cons],
   claim_C1_rate_limit.2 2 [0, 10, 20, 70] (by decide)
     (by norm_num [List.chain'_cons]) 5⟩

/-- C3: `route_query` proceeds in source order. A feature-denied (disabled
flag or unknown type) request raises 403 with the state untouched and is
neither processed nor cached; a rate-limited request raises 429, touching
only the rate-limit bookkeeping, and is neither processed nor cached; with
caching enabled, a cache hit returns the cached response marked
`from_cache = True` without awaiting `_process_query`; otherwise the request
is processed, its usage tracked, its response cached, and returned marked
`from_cache = False`. -/
theorem claim_C3_route_query :
    ∀ (cfg : TenantRouter.TenantConfig) (pq : Except String TenantRouter.Response)
      (st : TenantRouter.RouterState) (t q qt : String) (now : TenantRouter.Time),
      (TenantRouter.featureEnabled cfg qt = false →
        (TenantRouter.routeQueryWith cfg pq st t q qt now).1 =
          .error (.http 403 ("Feature " ++ qt ++ " not enabled for your subscription")) ∧
        (TenantRouter.routeQueryWith cfg pq st t q qt now).2.1 = st ∧
        (TenantRouter.routeQueryWith cfg pq st t q qt now).2.2 = false) ∧
      (∀ st1 : TenantRouter.RouterState,
        st1 = { st with rate_limits := (Py.setAssoc st.rate_limits t
            (TenantRouter.checkRateLimit cfg.rate_limit
              (Py.getAssocD st.rate_limits t []) now).2) } →
        TenantRouter.featureEnabled cfg qt = true →
        ((TenantRouter.checkRateLimit cfg.rate_limit
            (Py.getAssocD st.rate_limits t []) now).1 = false →
          (TenantRouter.routeQueryWith cfg pq st t q qt now).1 =
            .error (.http 429 "Rate limit exceeded. Please try again later.") ∧
          (TenantRouter.routeQueryWith cfg pq st t q qt now).2.1 = st1 ∧
          (TenantRouter.routeQueryWith cfg pq st t q qt now).2.2 = false) ∧
        ((TenantRouter.checkRateLimit cfg.rate_limit
            (Py.getAssocD st.rate_limits t []) now).1 = true →
          cfg.cache_enabled = true →
          (∀ r : TenantRouter.Response,
            (TenantRouter.checkDuplicateRequest st1 t q qt now).1 = some r →
            (TenantRouter.routeQueryWith cfg pq st t q qt now).1 = .ok ⟨r, true⟩ ∧
            (TenantRouter.routeQueryWith cfg pq st t q qt now).2.1 =
              (TenantRouter.checkDuplicateRequest st1 t q qt now).2 ∧
            (TenantRouter.routeQueryWith cfg pq st t q qt now).2.2 = false) ∧
          ((TenantRouter.checkDuplicateRequest st1 t q qt now).1 = none →
            ∀ resp : TenantRouter.Response, pq = .ok resp →
            (TenantRouter.routeQueryWith cfg pq st t q qt now).1 = .ok ⟨resp, false⟩ ∧
            (TenantRouter.routeQueryWith cfg pq st t q qt now).2.2 = true ∧
            (TenantRouter.routeQueryWith cfg pq st t q qt now).2.1 =
              TenantRouter.cacheResponse
                { (TenantRouter.checkDuplicateRequest st1 t q qt now).2 with
                  usage_stats := TenantRouter.trackUsage
                    (TenantRouter.checkDuplicateRequest st1 t q qt now).2.usage_stats
                    t resp.tokens_used true }
                t q qt resp now))) := by
  intro cfg pq st t q qt now
  constructor
  · intro hf
    simp [TenantRouter.routeQueryWith, hf]
  · intro st1 hst1 hf
    subst hst1
    constructor
    · intro hrl
      simp [TenantRouter.routeQueryWith, hf, hrl]
    · intro hrl hce
      constructor
      · intro r hdup
        simp [TenantRouter.routeQueryWith, hf, hrl, hce, hdup]
      · intro hdup resp hpq
        subst hpq
        simp [TenantRouter.routeQueryWith, hf, hrl, hce, hdup]

/-- Witness for C3 exercising all four branches at concrete inputs: an
unknown query type (403), a zero rate limit (429), a warm cache (hit), and
a fresh request on the empty router (processed and cached). -/
theorem claim_C3_route_query_witness :
    (TenantRouter.featureEnabled demoCfg "bogus" = false ∧
      (TenantRouter.routeQueryWith demoCfg (.ok demoResponse) TenantRouter.initialState
          "t1" "q" "bogus" 0).1 =
        .error (.http 403 "Feature bogus not enabled for your subscription") ∧
      (TenantRouter.routeQueryWith demoCfg (.ok demoResponse) TenantRouter.initialState
          "t1" "q" "bogus" 0).2.1 = TenantRouter.initialState ∧
      (TenantRouter.routeQueryWith demoCfg (.ok demoResponse) TenantRouter.initialState
          "t1" "q" "bogus" 0).2.2 = false) ∧
    ((TenantRouter.routeQueryWith { demoCfg with rate_limit := 0 } (.ok demoResponse)
        TenantRouter.initialState "t1" "q" "sales" 0).1 =
        .error (.http 429 "Rate limit exceeded. Please try again later.") ∧
      (TenantRouter.routeQueryWith { demoCfg with rate_limit := 0 } (.ok demoResponse)
        TenantRouter.initialState "t1" "q" "sales" 0).2.2 = false) ∧
    ((TenantRouter.routeQueryWith demoCfg (.error "boom")
        { request_cache :=
            [(TenantRouter.generateCacheKey "t1" "q" "sales", ⟨0, demoResponse, "t1"⟩)]
          rate_limits := []
          usage_stats := [] }
        "t1" "q" "sales" 10).1 = .ok ⟨demoResponse, true⟩ ∧
      (TenantRouter.routeQueryWith demoCfg (.error "boom")
        { request_cache :=
            [(TenantRouter.generateCacheKey "t1" "q" "sales", ⟨0, demoResponse, "t1"⟩)]
          rate_limits := []
          usage_stats := [] }
        "t1" "q" "sales" 10).2.2 = false) ∧
    ((TenantRouter.routeQueryWith demoCfg (.ok demoResponse) TenantRouter.initialState
        "t1" "q" "sales" 0).1 = .ok ⟨demoResponse, false⟩ ∧
      (TenantRouter.routeQueryWith demoCfg (.ok demoResponse) TenantRouter.initialState
        "t1" "q" "sales" 0).2.2 = true) := by
  have h403 := (claim_C3_route_query demoCfg (.ok demoResponse) TenantRouter.initialState
    "t1" "q" "bogus" 0).1 (by decide)
  have h429 := (((claim_C3_route_query { demoCfg with rate_limit := 0 } (.ok demoResponse)
    TenantRouter.initialState "t1" "q" "sales" 0).2 _ rfl (by decide)).1 (by decide))
  have hdup : (TenantRouter.checkDuplicateRequest
      { request_cache :=
          [(TenantRouter.generateCacheKey "t1" "q" "sales", ⟨0, demoResponse, "t1"⟩)]
        rate_limits := Py.setAssoc [] "t1"
          (TenantRouter.checkRateLimit demoCfg.rate_limit (Py.getAssocD [] "t1" []) 10).2
        usage_stats := [] }
      "t1" "q" "sales" 10).1 = some demoResponse := by
    simp [TenantRouter.checkDuplicateRequest, List.lookup, TenantRouter.tdSeconds,
      TenantRouter.cacheTtl]
  have hhit := ((((claim_C3_route_query demoCfg (.error "boom")
    { request_cache :=
        [(TenantRouter.generateCacheKey "t1" "q" "sales", ⟨0, demoResponse, "t1"⟩)]
      rate_limits := []
      usage_stats := [] }
    "t1" "q" "sales" 10).2 _ rfl (by decide)).2 (by decide) (by decide)).1 demoResponse hdup)
  have hfresh := ((((claim_C3_route_query demoCfg (.ok demoResponse)
    TenantRouter.initialState "t1" "q" "sales" 0).2 _ rfl (by decide)).2
      (by decide) (by decide)).2 (by decide) demoResponse rfl)
  exact ⟨⟨by decide, h403⟩, ⟨h429.1, h429.2.2⟩, ⟨hhit.1, hhit.2.2⟩, ⟨hfresh.1, hfresh.2.1⟩⟩

section ReprRoundTrip

/-- A decimal digit character produced from a value below ten. -/
theorem digitChar_toNat (d : ℕ) (h : d < 10) : (Char.ofNat (48 + d)).toNat = 48 + d := by
  interval_cases d <;> decide

/-- Such characters are ASCII digits. -/
theorem digitChar_isDigit (d : ℕ) (h : d < 10) : (Char.ofNat (48 + d)).isDigit = true := by
  interval_cases d <;> decide

/-- Characterization of `natReprGo` under sufficient fuel: all characters
are digits, the list is nonempty, and folding the digits back recovers the
value. -/
theorem natReprGo_spec : ∀ (fuel n : ℕ), n < fuel →
    (∀ c ∈ Py.natReprGo fuel n, c.isDigit = true) ∧
    Py.natReprGo fuel n ≠ [] ∧
    (Py.natReprGo fuel n).foldl (fun acc c => 10 * acc + (c.toNat - 48)) 0 = n := by
  intro fuel
  induction fuel with
  | zero => intro n h; omega
  | succ fuel ih =>
      intro n h
      by_cases hn : n < 10
      · refine ⟨?_, ?_, ?_⟩
        · intro c hc
          simp only [Py.natReprGo, hn, if_true, List.mem_singleton] at hc
          subst hc
          exact digitChar_isDigit n hn
        · simp [Py.natReprGo, hn]
        · simp only [Py.natReprGo, hn, if_true, List.foldl_cons, List.foldl_nil]
          rw [digitChar_toNat n hn]
          omega
      · have hdiv : n / 10 < fuel := by
          have h1 : n / 10 < n := Nat.div_lt_self (by omega) (by omega)
          omega
        obtain ⟨ihd, ihne, ihfold⟩ := ih (n / 10) hdiv
        refine ⟨?_, ?_, ?_⟩
        · intro c hc
          simp only [Py.natReprGo, hn, if_false, List.mem_append, List.mem_singleton] at hc
          rcases hc with hc | hc
          · exact ihd c hc
          · subst hc
            exact digitChar_isDigit (n % 10) (Nat.mod_lt _ (by omega))
        · simp [Py.natReprGo, hn]
        · simp only [Py.natReprGo, hn, if_false, List.foldl_append, List.foldl_cons,
            List.foldl_nil, ihfold]
          rw [digitChar_toNat (n % 10) (Nat.mod_lt _ (by omega))]
          omega

/-- Digit characters are not whitespace. -/
theorem digit_not_whitespace (c : Char) (h : c.isDigit = true) :
    c.isWhitespace = false := by
  simp only [Char.isDigit, Bool.and_eq_true, decide_eq_true_eq] at h
  simp only [Char.isWhitespace]
  simp only [Bool.or_eq_false_iff]
  refine ⟨⟨⟨?_, ?_⟩, ?_⟩, ?_⟩ <;>
    · simp only [decide_eq_false_iff_not]
      intro he
      rw [he] at h
      revert h
      decide

/-- A string of non-whitespace characters is unchanged by `str.strip()`. -/
theorem pyStrip_of_no_whitespace (ds : List Char)
    (h : ∀ c ∈ ds, c.isWhitespace = false) : Py.pyStrip ⟨ds⟩ = ⟨ds⟩ := by
  have hdrop : ∀ (l : List Char), (∀ c ∈ l, c.isWhitespace = false) →
      l.dropWhile Char.isWhitespace = l := by
    intro l hl
    cases l with
    | nil => rfl
    | cons c cs => simp [List.dropWhile_cons, hl c (by simp)]
  unfold Py.pyStrip
  simp only
  rw [hdrop _ h, hdrop _ ?_, List.reverse_reverse]
  intro c hc
  exact h c (List.mem_reverse.mp hc)

/-- `int()` of a pure digit string parses by `digitsToNat`. -/
theorem pyParseInt_of_digits (ds : List Char) (h1 : ds ≠ [])
    (hd : ∀ c ∈ ds, c.isDigit = true) :
    Py.pyParseInt ⟨ds⟩ = (Py.digitsToNat ds).map (fun n => (n : ℤ)) := by
  have hstrip : Py.pyStrip ⟨ds⟩ = ⟨ds⟩ :=
    pyStrip_of_no_whitespace ds (fun c hc => digit_not_whitespace c (hd c hc))
  unfold Py.pyParseInt
  rw [hstrip]
  cases ds with
  | nil => exact absurd rfl h1
  | cons c cs =>
      have hc : c.isDigit = true := hd c (by simp)
      split
      · rename_i ds' heq
        rw [show c = '-' from (List.cons.injEq _ _ _ _ ▸ heq).1] at hc
        exact absurd hc (by decide)
      · rename_i ds' heq
        rw [show c = '+' from (List.cons.injEq _ _ _ _ ▸ heq).1] at hc
        exact absurd hc (by decide)
      · rfl

/-- Python parses back exactly the decimal rendering of any integer:
`int(str(n)) == n`. -/
theorem pyParseInt_intRepr (n : ℤ) : Py.pyParseInt (Py.intRepr n) = some n := by
  obtain ⟨hdall, hdne, hdfold⟩ := natReprGo_spec (n.natAbs + 1) n.natAbs (by omega)
  by_cases hneg : n < 0
  · have hne' : ∀ c ∈ ('-' :: Py.natRepr n.natAbs), c.isWhitespace = false := by
      intro c hc
      rcases List.mem_cons.mp hc with hc | hc
      · subst hc; decide
      · exact digit_not_whitespace c (hdall c hc)
    have hstrip := pyStrip_of_no_whitespace _ hne'
    have hdsome : Py.digitsToNat (Py.natRepr n.natAbs) = some n.natAbs := by
      unfold Py.digitsToNat
      rw [if_pos]
      · exact congrArg some hdfold
      · simp only [Bool.and_eq_true, ne_eq, decide_eq_true_eq, List.all_eq_true]
        exact ⟨by simpa using hdne, hdall⟩
    unfold Py.intRepr
    rw [if_pos hneg]
    unfold Py.pyParseInt
    rw [hstrip]
    simp only [hdsome]
    refine congrArg some ?_
    show -(n.natAbs : ℤ) = n
    omega
  · unfold Py.intRepr
    rw [if_neg hneg]
    rw [show n.natAbs = n.toNat from by omega] at hdall hdne hdfold
    unfold Py.natRepr
    rw [pyParseInt_of_digits _ hdne hdall]
    have hdsome : Py.digitsToNat (Py.natReprGo (n.toNat + 1) n.toNat) = some n.toNat := by
      unfold Py.digitsToNat
      rw [if_pos]
      · exact congrArg some hdfold
      · simp only [Bool.and_eq_true, ne_eq, decide_eq_true_eq, List.all_eq_true]
        exact ⟨by simpa using hdne, hdall⟩
    rw [hdsome]
    refine congrArg some ?_
    show ((n.toNat : ℤ)) = n
    omega

end ReprRoundTrip

section AnonymizerLemmas

/-- Lookup distributes over append through the missing-key case. -/
theorem lookup_append_none {α : Type} {l1 : List (String × α)} (l2 : List (String × α))
    {k : String} (h : List.lookup k l1 = none) :
    List.lookup k (l1 ++ l2) = List.lookup k l2 := by
  induction l1 with
  | nil => rfl
  | cons p t ih =>
      rw [List.cons_append]
      rcases p with ⟨k', v⟩
      simp only [List.lookup] at h ⊢
      cases hk : k == k' with
      | true => rw [hk] at h; cases h
      | false => rw [hk] at h; exact ih h

/-- Lookup distributes over append through the found-key case. -/
theorem lookup_append_some {α : Type} {l1 : List (String × α)} (l2 : List (String × α))
    {k : String} {v : α} (h : List.lookup k l1 = some v) :
    List.lookup k (l1 ++ l2) = some v := by
  induction l1 with
  | nil => cases h
  | cons p t ih =>
      rw [List.cons_append]
      rcases p with ⟨k', w⟩
      simp only [List.lookup] at h ⊢
      cases hk : k == k' with
      | true => rw [hk] at h; exact h
      | false => rw [hk] at h; exact ih h

/-- A key absent from every binding is not found. -/
theorem lookup_none_of_keys {α : Type} (l : List (String × α)) (k : String)
    (h : ∀ p ∈ l, p.1 ≠ k) : List.lookup k l = none := by
  induction l with
  | nil => rfl
  | cons p t ih =>
      rcases p with ⟨k', v⟩
      simp only [List.lookup]
      cases hk : k == k' with
      | true =>
          exact absurd (beq_iff_eq.mp hk).symm (h (k', v) (by simp))
      | false =>
          exact ih (fun p hp => h p (by simp [hp]))

/-- The keys each block of `_remove_identifiers` can emit. -/
theorem anonIdBlock_keys (hash_salt : String) (record : List (String × Anonymizer.PyVal)) :
    ∀ p ∈ Anonymizer.anonIdBlock hash_salt record, p.1 = "anonymized_patient_id" := by
  intro p hp
  unfold Anonymizer.anonIdBlock at hp
  rcases h : List.lookup "patient_id" record with _ | v <;> rw [h] at hp <;> simp at hp
  rw [hp]

/-- The birth block emits only `birth_year` and `age_group`. -/
theorem birthBlock_keys (ry : ℤ) (record : List (String × Anonymizer.PyVal)) :
    ∀ p ∈ Anonymizer.birthBlock ry record, p.1 = "birth_year" ∨ p.1 = "age_group" := by
  intro p hp
  unfold Anonymizer.birthBlock at hp
  rcases h : (List.lookup "date_of_birth" record).bind Anonymizer.anonymizeDate with _ | ys <;>
    rw [h] at hp
  · simp at hp
  · dsimp only at hp
    rcases h2 : Py.pyParseInt ys with _ | y <;> rw [h2] at hp <;> simp at hp
    rcases hp with hp | hp <;> simp [hp]

/-- The geo block emits only `state` and `zip3`. -/
theorem geoBlock_keys (record : List (String × Anonymizer.PyVal)) :
    ∀ p ∈ Anonymizer.geoBlock record, p.1 = "state" ∨ p.1 = "zip3" := by
  intro p hp
  unfold Anonymizer.geoBlock at hp
  rcases h : (List.lookup "address" record).bind Anonymizer.anonymizeGeographic with _ | geo <;>
    rw [h] at hp <;> simp at hp
  rcases hp with hp | hp <;> simp [hp]

/-- The safe-field block copies only whitelisted clinical keys. -/
theorem safeBlock_keys (record : List (String × Anonymizer.PyVal)) :
    ∀ p ∈ Anonymizer.safeBlock record, p.1 ∈ Anonymizer.safeFields := by
  intro p hp
  unfold Anonymizer.safeBlock at hp
  rw [List.mem_filterMap] at hp
  obtain ⟨f, hf, hmap⟩ := hp
  rcases h : List.lookup f record with _ | v <;> rw [h] at hmap <;> simp at hmap
  rw [← hmap]
  exact hf

/-- The visit block emits only `last_visit_year`. -/
theorem visitBlock_keys (record : List (String × Anonymizer.PyVal)) :
    ∀ p ∈ Anonymizer.visitBlock record, p.1 = "last_visit_year" := by
  intro p hp
  unfold Anonymizer.visitBlock at hp
  rcases h : List.lookup "last_visit_date" record with _ | v <;> rw [h] at hp <;> simp at hp
  rw [hp]

/-- Every key `_remove_identifiers` emits is on the output whitelist. -/
theorem removeIdentifiers_keys (hash_salt : String) (ry : ℤ)
    (record : List (String × Anonymizer.PyVal)) :
    ∀ p ∈ Anonymizer.removeIdentifiers hash_salt ry record,
      p.1 ∈ Anonymizer.outputWhitelist := by
  intro p hp
  unfold Anonymizer.removeIdentifiers at hp
  simp only [List.append_assoc, List.mem_append] at hp
  rcases hp with hp | hp | hp | hp | hp
  · rw [anonIdBlock_keys hash_salt record p hp]; decide
  · rcases birthBlock_keys ry record p hp with h | h <;> rw [h] <;> decide
  · rcases geoBlock_keys record p hp with h | h <;> rw [h] <;> decide
  · have h := safeBlock_keys record p hp
    unfold Anonymizer.outputWhitelist
    simp only [List.mem_append]
    exact Or.inl (Or.inr h)
  · rw [visitBlock_keys record p hp]; decide

end AnonymizerLemmas

section Sha256HexLemmas

/-- A hex digit character for a value below 16. -/
theorem hexChar_isHexDigit (n : ℕ) (h : n < 16) :
    SHA256.hexChar n ∈ ("0123456789abcdef" : String).data := by
  interval_cases n <;> decide

/-- One word renders as eight hex characters. -/
theorem wordHex_length (n : ℕ) : (SHA256.wordHex n).length = 8 := by
  simp [SHA256.wordHex]

/-- SHA-256 produces eight words. -/
theorem sha256Words_length (msg : List ℕ) : (SHA256.sha256Words msg).length = 8 := by
  simp [SHA256.sha256Words]

/-- The hex digest has 64 characters. -/
theorem sha256Hex_data_length (s : String) : (SHA256.sha256Hex s).data.length = 64 := by
  show (((SHA256.sha256Words (SHA256.utf8Bytes s)).map SHA256.wordHex).flatten).length = 64
  rw [List.length_flatten]
  have h : ((SHA256.sha256Words (SHA256.utf8Bytes s)).map SHA256.wordHex).map List.length =
      (SHA256.sha256Words (SHA256.utf8Bytes s)).map (fun _ => 8) := by
    rw [List.map_map]
    exact List.map_congr_left (fun w _ => wordHex_length w)
  rw [h, List.map_const', List.sum_replicate, sha256Words_length]
  rfl

/-- Every character of the hex digest is a lower-case hex digit. -/
theorem sha256Hex_isHex (s : String) :
    ∀ c ∈ (SHA256.sha256Hex s).data, c ∈ ("0123456789abcdef" : String).data := by
  intro c hc
  have hc2 : c ∈ ((SHA256.sha256Words (SHA256.utf8Bytes s)).map SHA256.wordHex).flatten := hc
  rw [List.mem_flatten] at hc2
  obtain ⟨l, hl, hcl⟩ := hc2
  rw [List.mem_map] at hl
  obtain ⟨w, _, hw⟩ := hl
  subst hw
  unfold SHA256.wordHex at hcl
  rw [List.mem_map] at hcl
  obtain ⟨i, _, hi⟩ := hcl
  subst hi
  exact hexChar_isHexDigit _ (Nat.mod_lt _ (by omega))

end Sha256HexLemmas

/-- C7: `_remove_identifiers` emits only whitelisted keys — the anonymized
id, year-level dates, age group, state, 3-digit zip prefix and the twelve
safe clinical/purchase fields; none of the direct identifiers (names,
address, phone, fax, email, ssn, medical record number, insurance number,
raw dates, patient id) survives; `anonymized_patient_id` is the salted
SHA-256 hex digest of `patient_id` truncated to 16 hex characters; and both
dates are reduced to their year. -/
theorem claim_C7_remove_identifiers :
    ∀ (hash_salt : String) (reference_year : ℤ) (record : List (String × Anonymizer.PyVal)),
      ((Anonymizer.removeIdentifiers hash_salt reference_year record).all
        (fun p => decide (p.1 ∈ Anonymizer.outputWhitelist))) = true ∧
      ((["patient_id", "first_name", "last_name", "middle_name", "address", "phone",
         "fax", "email", "ssn", "medical_record_number", "insurance_number",
         "date_of_birth", "last_visit_date"].all (fun k =>
        (List.lookup k
          (Anonymizer.removeIdentifiers hash_salt reference_year record)).isNone)) = true) ∧
      (List.lookup "anonymized_patient_id"
          (Anonymizer.removeIdentifiers hash_salt reference_year record) =
        (List.lookup "patient_id" record).map (fun v =>
          Anonymizer.PyVal.str (Anonymizer.createAnonymizedId hash_salt (Anonymizer.pyStr v)))) ∧
      (∀ oid : String,
        Anonymizer.createAnonymizedId hash_salt oid =
          ⟨(SHA256.sha256Hex (hash_salt ++ ":" ++ oid)).data.take 16⟩ ∧
        (Anonymizer.createAnonymizedId hash_salt oid).data.length = 16 ∧
        ((Anonymizer.createAnonymizedId hash_salt oid).data.all
          (fun c => decide (c ∈ ("0123456789abcdef" : String).data))) = true) ∧
      (∀ (s : String) (d : Anonymizer.PyDate),
        List.lookup "date_of_birth" record = some (Anonymizer.PyVal.str s) →
        Anonymizer.fromIsoformat s = some d →
        List.lookup "birth_year"
            (Anonymizer.removeIdentifiers hash_salt reference_year record) =
          some (Anonymizer.PyVal.int d.year) ∧
        List.lookup "age_group"
            (Anonymizer.removeIdentifiers hash_salt reference_year record) =
          some (Anonymizer.PyVal.str (Anonymizer.calculateAgeGroup d.year reference_year))) ∧
      (List.lookup "last_visit_year"
          (Anonymizer.removeIdentifiers hash_salt reference_year record) =
        (List.lookup "last_visit_date" record).map (fun v =>
          Anonymizer.optStrVal (Anonymizer.anonymizeDate v))) ∧
      (∀ (s : String) (d : Anonymizer.PyDate), Anonymizer.fromIsoformat s = some d →
        Anonymizer.anonymizeDate (Anonymizer.PyVal.str s) = some (Py.intRepr d.year)) := by
  intro hash_salt reference_year record
  have hparse_ne : ∀ (s : String) (d : Anonymizer.PyDate),
      Anonymizer.fromIsoformat s = some d → s ≠ "" := by
    intro s d hp hs
    subst hs
    simp [Anonymizer.fromIsoformat] at hp
  have hanonDate : ∀ (s : String) (d : Anonymizer.PyDate),
      Anonymizer.fromIsoformat s = some d →
      Anonymizer.anonymizeDate (Anonymizer.PyVal.str s) = some (Py.intRepr d.year) := by
    intro s d hp
    unfold Anonymizer.anonymizeDate
    dsimp only
    rw [if_neg (hparse_ne s d hp), hp]
    rfl
  have hA := removeIdentifiers_keys hash_salt reference_year record
  have haNone : ∀ k : String, k ≠ "anonymized_patient_id" →
      List.lookup k (Anonymizer.anonIdBlock hash_salt record) = none := by
    intro k hk
    refine lookup_none_of_keys _ _ (fun p hp heq => ?_)
    have h := anonIdBlock_keys hash_salt record p hp
    rw [heq] at h
    exact hk h
  have hbNone : ∀ k : String, k ≠ "birth_year" → k ≠ "age_group" →
      List.lookup k (Anonymizer.birthBlock reference_year record) = none := by
    intro k hk1 hk2
    refine lookup_none_of_keys _ _ (fun p hp heq => ?_)
    rcases birthBlock_keys reference_year record p hp with h | h <;> rw [heq] at h
    · exact hk1 h
    · exact hk2 h
  have hgNone : ∀ k : String, k ≠ "state" → k ≠ "zip3" →
      List.lookup k (Anonymizer.geoBlock record) = none := by
    intro k hk1 hk2
    refine lookup_none_of_keys _ _ (fun p hp heq => ?_)
    rcases geoBlock_keys record p hp with h | h <;> rw [heq] at h
    · exact hk1 h
    · exact hk2 h
  have hsNone : ∀ k : String, k ∉ Anonymizer.safeFields →
      List.lookup k (Anonymizer.safeBlock record) = none := by
    intro k hk
    refine lookup_none_of_keys _ _ (fun p hp heq => ?_)
    have h := safeBlock_keys record p hp
    rw [heq] at h
    exact hk h
  have hvNone : ∀ k : String, k ≠ "last_visit_year" →
      List.lookup k (Anonymizer.visitBlock record) = none := by
    intro k hk
    refine lookup_none_of_keys _ _ (fun p hp heq => ?_)
    have h := visitBlock_keys record p hp
    rw [heq] at h
    exact hk h
  refine ⟨?_, ?_, ?_, ?_, ?_, ?_, hanonDate⟩
  · rw [List.all_eq_true]
    intro p hp
    rw [decide_eq_true_eq]
    exact hA p hp
  · rw [List.all_eq_true]
    intro k hk
    rw [Option.isNone_iff_eq_none]
    refine lookup_none_of_keys _ _ (fun p hp heq => ?_)
    have h := hA p hp
    rw [heq] at h
    fin_cases hk <;> revert h <;> decide
  · rcases h1 : List.lookup "patient_id" record with _ | v
    · have hb1 : Anonymizer.anonIdBlock hash_salt record = [] := by
        unfold Anonymizer.anonIdBlock
        rw [h1]
      unfold Anonymizer.removeIdentifiers
      rw [hb1, List.nil_append]
      have e1 : List.lookup "anonymized_patient_id"
          (Anonymizer.birthBlock reference_year record ++ Anonymizer.geoBlock record) = none := by
        rw [lookup_append_none _ (hbNone _ (by decide) (by decide))]
        exact hgNone _ (by decide) (by decide)
      have e2 : List.lookup "anonymized_patient_id"
          (Anonymizer.birthBlock reference_year record ++ Anonymizer.geoBlock record ++
            Anonymizer.safeBlock record) = none := by
        rw [lookup_append_none _ e1]
        exact hsNone _ (by decide)
      rw [lookup_append_none _ e2]
      exact hvNone _ (by decide)
    · have hb1 : Anonymizer.anonIdBlock hash_salt record =
          [("anonymized_patient_id",
            Anonymizer.PyVal.str (Anonymizer.createAnonymizedId hash_salt (Anonymizer.pyStr v)))] := by
        unfold Anonymizer.anonIdBlock
        rw [h1]
      unfold Anonymizer.removeIdentifiers
      rw [hb1]
      exact lookup_append_some _ (lookup_append_some _ (lookup_append_some _
        (lookup_append_some _ (by simp [List.lookup]))))
  · intro oid
    refine ⟨rfl, ?_, ?_⟩
    · show ((SHA256.sha256Hex (hash_salt ++ ":" ++ oid)).data.take 16).length = 16
      rw [List.length_take, sha256Hex_data_length]
      rfl
    · rw [List.all_eq_true]
      intro c hc
      rw [decide_eq_true_eq]
      exact sha256Hex_isHex _ c (List.mem_of_mem_take hc)
  · intro s d hdob hparse
    have hbind : (List.lookup "date_of_birth" record).bind Anonymizer.anonymizeDate =
        some (Py.intRepr d.year) := by
      rw [hdob]
      simpa using hanonDate s d hparse
    have hb2 : Anonymizer.birthBlock reference_year record =
        [("birth_year", Anonymizer.PyVal.int d.year),
         ("age_group", Anonymizer.PyVal.str
            (Anonymizer.calculateAgeGroup d.year reference_year))] := by
      unfold Anonymizer.birthBlock
      rw [hbind]
      simp [pyParseInt_intRepr]
    have ea1 : List.lookup "birth_year" (Anonymizer.anonIdBlock hash_salt record) = none :=
      haNone _ (by decide)
    have ea2 : List.lookup "age_group" (Anonymizer.anonIdBlock hash_salt record) = none :=
      haNone _ (by decide)
    constructor
    · unfold Anonymizer.removeIdentifiers
      refine lookup_append_some _ (lookup_append_some _ (lookup_append_some _ ?_))
      rw [lookup_append_none _ ea1, hb2]
      simp [List.lookup]
    · unfold Anonymizer.removeIdentifiers
      refine lookup_append_some _ (lookup_append_some _ (lookup_append_some _ ?_))
      rw [lookup_append_none _ ea2, hb2]
      simp [List.lookup]
  · have e1 : List.lookup "last_visit_year"
        (Anonymizer.anonIdBlock hash_salt record ++
          Anonymizer.birthBlock reference_year record) = none := by
      rw [lookup_append_none _ (haNone _ (by decide))]
      exact hbNone _ (by decide) (by decide)
    have e2 : List.lookup "last_visit_year"
        (Anonymizer.anonIdBlock hash_salt record ++
          Anonymizer.birthBlock reference_year record ++ Anonymizer.geoBlock record) = none := by
      rw [lookup_append_none _ e1]
      exact hgNone _ (by decide) (by decide)
    have e3 : List.lookup "last_visit_year"
        (Anonymizer.anonIdBlock hash_salt record ++
          Anonymizer.birthBlock reference_year record ++ Anonymizer.geoBlock record ++
          Anonymizer.safeBlock record) = none := by
      rw [lookup_append_none _ e2]
      exact hsNone _ (by decide)
    unfold Anonymizer.removeIdentifiers
    rw [lookup_append_none _ e3]
    unfold Anonymizer.visitBlock
    rcases h5 : List.lookup "last_visit_date" record with _ | v <;> simp [List.lookup]

/-- Witness for C7 at the demonstration record of the script: birth date
1975-03-15 reduces to year 1975 (age group 40-49 against reference year
2024) and the last visit date 2024-01-15 reduces to the year string 2024. -/
theorem claim_C7_remove_identifiers_witness :
    Anonymizer.fromIsoformat "1975-03-15" = some ⟨1975, 3, 15⟩ ∧
    List.lookup "date_of_birth"
        [("date_of_birth", Anonymizer.PyVal.str "1975-03-15"),
         ("last_visit_date", Anonymizer.PyVal.str "2024-01-15")] =
      some (Anonymizer.PyVal.str "1975-03-15") ∧
    (List.lookup "birth_year"
        (Anonymizer.removeIdentifiers "s3cret" 2024
          [("date_of_birth", Anonymizer.PyVal.str "1975-03-15"),
           ("last_visit_date", Anonymizer.PyVal.str "2024-01-15")]) =
      some (Anonymizer.PyVal.int 1975) ∧
     List.lookup "age_group"
        (Anonymizer.removeIdentifiers "s3cret" 2024
          [("date_of_birth", Anonymizer.PyVal.str "1975-03-15"),
           ("last_visit_date", Anonymizer.PyVal.str "2024-01-15")]) =
      some (Anonymizer.PyVal.str "40-49")) ∧
    Anonymizer.anonymizeDate (Anonymizer.PyVal.str "2024-01-15") = some "2024" :=
  ⟨by decide, by decide,
   (claim_C7_remove_identifiers "s3cret" 2024
       [("date_of_birth", Anonymizer.PyVal.str "1975-03-15"),
        ("last_visit_date", Anonymizer.PyVal.str "2024-01-15")]).2.2.2.2.1
     "1975-03-15" ⟨1975, 3, 15⟩ (by decide) (by decide),
   (claim_C7_remove_identifiers "s3cret" 2024
       [("date_of_birth", Anonymizer.PyVal.str "1975-03-15"),
        ("last_visit_date", Anonymizer.PyVal.str "2024-01-15")]).2.2.2.2.2.2
     "2024-01-15" ⟨2024, 1, 15⟩ (by decide)⟩
